import Mathlib

/-!
Shallow embedding of the Orion spreadsheet-ETL scripts
(`etl_boulevard.py` and `etl_santa_elisa.py`): cell values, header
discovery, section parsers, normalizers, the cross-section validator and
the idempotent store loader, together with theorems settling the frozen
claims about them.
-/

namespace Orion

/-- Calendar date `(year, month, day)`; the embedding of the Python
`datetime.date` values carried by workbook cells and records. -/
structure Date where
  y : Nat
  m : Nat
  d : Nat
deriving DecidableEq, Repr

/-- Strict lexicographic comparison of dates, the order Python uses on
`datetime.date` values. -/
def Date.lex (a b : Date) : Prop :=
  a.y < b.y ∨ (a.y = b.y ∧ (a.m < b.m ∨ (a.m = b.m ∧ a.d < b.d)))

/-- Non-strict date order. -/
def Date.lexLe (a b : Date) : Prop :=
  Date.lex a b ∨ a = b

instance : DecidableRel Date.lex := fun a b => by
  unfold Date.lex; exact inferInstance

instance : DecidableRel Date.lexLe := fun a b => by
  unfold Date.lexLe; exact inferInstance

instance : IsTotal Date Date.lexLe :=
  ⟨by
    intro a b
    cases a with
    | mk ay am ad =>
      cases b with
      | mk by' bm bd =>
        simp only [Date.lexLe, Date.lex, Date.mk.injEq]
        omega⟩

instance : IsTrans Date Date.lexLe :=
  ⟨by
    intro a b c h1 h2
    cases a with
    | mk ay am ad =>
      cases b with
      | mk by' bm bd =>
        cases c with
        | mk cy cm cd =>
          simp only [Date.lexLe, Date.lex, Date.mk.injEq] at h1 h2 ⊢
          omega⟩

/-- `True` on Gregorian leap years; used to reproduce
`date(y, m+1, 1) - timedelta(days=1)` from `_month_end_to_date`. -/
def isLeapYear (y : Nat) : Bool :=
  y % 4 == 0 && (y % 100 != 0 || y % 400 == 0)

/-- Number of days of month `m` of year `y`. -/
def daysInMonth (y m : Nat) : Nat :=
  if m = 2 then (if isLeapYear y then 29 else 28)
  else if m = 4 ∨ m = 6 ∨ m = 9 ∨ m = 11 then 30
  else 31

/-- `_month_end_to_date`: convert a year-month key to the last day of that
month.  Month keys are embedded as `(year, month)` pairs standing for the
zero-padded `"YYYY-MM"` strings the Python builds with `strftime`;
lexicographic order on the pairs coincides with string order on the
zero-padded keys. -/
def month_end_to_date (ym : Nat × Nat) : Date :=
  ⟨ym.1, ym.2, daysInMonth ym.1 ym.2⟩

/-- A workbook cell value, carrying the runtime type tag openpyxl exposes:
empty, number, text, or calendar date. -/
inductive Value where
  | vnone
  | num (q : ℚ)
  | vstr (s : String)
  | vdate (dt : Date)
deriving DecidableEq, Repr

/-- A worksheet: `cell(row, col) → value`. -/
abbrev Grid := Nat → Nat → Value

/-- Truncation toward zero, Python's `int(float(...))`. -/
def ratTrunc (q : ℚ) : Int :=
  Int.tdiv q.num (q.den : Int)

/-- Fractional decimal digits of `num/den`, at most `fuel` of them. -/
def fracDigits (fuel : Nat) (num den : Nat) : String :=
  match fuel with
  | 0 => ""
  | fuel' + 1 =>
    if num = 0 then ""
    else toString (num * 10 / den) ++ fracDigits fuel' (num * 10 % den) den

/-- Decimal rendering of a rational, standing in for Python `str(float)`;
integral values render with a trailing `.0` as Python floats do. -/
def ratDecimalRepr (q : ℚ) : String :=
  let sign := if q < 0 then "-" else ""
  let n := q.num.natAbs
  let d := q.den
  if n % d = 0 then sign ++ toString (n / d) ++ ".0"
  else sign ++ toString (n / d) ++ "." ++ fracDigits 17 (n % d) d

/-- Zero-pad a number to two digits, as `strftime` does. -/
def pad2 (n : Nat) : String :=
  if n < 10 then "0" ++ toString n else toString n

/-- Python `str()` of a cell value (`str(datetime)` renders as
`"YYYY-MM-DD HH:MM:SS"`). -/
def valueToStr : Value → String
  | Value.vnone => "None"
  | Value.num q => ratDecimalRepr q
  | Value.vstr s => s
  | Value.vdate dt =>
    toString dt.y ++ "-" ++ pad2 dt.m ++ "-" ++ pad2 dt.d ++ " 00:00:00"

/-- Numeric value of a digit list (most significant first). -/
def digitsVal (cs : List Char) : Nat :=
  cs.foldl (fun a c => a * 10 + (c.toNat - 48)) 0

/-- Strip leading and trailing whitespace from a character list (the
char-level body of Python `str.strip()`). -/
def trimChars (cs : List Char) : List Char :=
  ((cs.dropWhile (fun c => c.isWhitespace)).reverse.dropWhile
    (fun c => c.isWhitespace)).reverse

/-- Python `str.strip()`. -/
def pyStrip (s : String) : String :=
  ⟨trimChars s.data⟩

/-- ASCII lowercase of one character; these sheets' status and name keys
only rely on ASCII case folding. -/
def lowerChar (c : Char) : Char :=
  if 65 ≤ c.toNat ∧ c.toNat ≤ 90 then Char.ofNat (c.toNat + 32) else c

/-- Python `str.lower()` (ASCII case folding). -/
def pyLower (s : String) : String :=
  ⟨s.data.map lowerChar⟩

/-- Split a character list at a separator test, keeping empty chunks. -/
def splitChars (p : Char → Bool) (cs : List Char) : List (List Char) :=
  cs.foldr (fun c acc =>
    if p c then [] :: acc
    else
      match acc with
      | [] => [[c]]
      | w :: ws => (c :: w) :: ws) [[]]

/-- Collapse internal whitespace runs to single spaces (and trim), the
`re.sub(r"\s+", " ", s)` step of `_normalize_header` applied after
`strip()`. -/
def collapseWs (s : String) : String :=
  ⟨List.intercalate [' ']
    ((splitChars (fun c => c.isWhitespace) s.data).filter (fun w => w ≠ []))⟩

/-- `"sep".join(parts)`. -/
def joinSep (sep : String) (parts : List String) : String :=
  match parts with
  | [] => ""
  | p :: rest => rest.foldl (fun acc q => acc ++ sep ++ q) p

/-- Python `float(s)` on a string, for the plain decimal forms that occur
in these sheets (optional sign, digits, optional fractional part).
Exponent, infinity and NaN spellings accepted by Python are not modelled;
a failing parse stands for the `ValueError` branch of `_safe_float`. -/
def parseDecimal? (s : String) : Option ℚ :=
  let cs := trimChars s.data
  let sgncs : ℚ × List Char :=
    match cs with
    | '-' :: rest => (-1, rest)
    | '+' :: rest => (1, rest)
    | _ => (1, cs)
  let ip := sgncs.2.takeWhile (fun c => c.isDigit)
  let rest := sgncs.2.dropWhile (fun c => c.isDigit)
  match rest with
  | [] => if ip = [] then Option.none else some (sgncs.1 * (digitsVal ip : ℚ))
  | '.' :: fp =>
    if fp.all (fun c => c.isDigit) ∧ (ip ≠ [] ∨ fp ≠ []) then
      some (sgncs.1 * ((digitsVal ip : ℚ) + (digitsVal fp : ℚ) / ((10 : ℚ) ^ fp.length)))
    else Option.none
  | _ => Option.none

/-- Round to two decimal places, the `round(f, 2)` in `_safe_float`.
Mathlib's `round` resolves exact half-cent ties upward where Python's
banker rounding would go to even; no claim depends on exact ties. -/
def round2 (q : ℚ) : ℚ :=
  ((round (q * 100) : ℤ) : ℚ) / 100

/-- `_safe_float`: numeric coercion that degrades to `none` instead of
raising, rounding to 2 decimals on success. -/
def safe_float : Value → Option ℚ
  | Value.vnone => Option.none
  | Value.num q => some (round2 q)
  | Value.vstr s => (parseDecimal? s).map round2
  | Value.vdate _ => Option.none

/-- `_safe_int`: `int(float(val))`, degrading to `none`. -/
def safe_int : Value → Option Int
  | Value.vnone => Option.none
  | Value.num q => some (ratTrunc q)
  | Value.vstr s => (parseDecimal? s).map ratTrunc
  | Value.vdate _ => Option.none

/-- `_safe_str`: `str(val).strip()`, empty results degrade to `none`.
The Santa Elisa variant's extra `.strip("\t").strip()` is absorbed by
`trim`, which already removes tabs. -/
def safe_str (v : Value) : Option String :=
  match v with
  | Value.vnone => Option.none
  | _ =>
    let s := pyStrip (valueToStr v)
    if s = "" then Option.none else some s

/-- `_safe_date`: calendar values pass through, all else degrades to
`none` (the `datetime → .date()` collapse is invisible here because both
embed as `Date`). -/
def safe_date : Value → Option Date
  | Value.vdate dt => some dt
  | _ => Option.none

/-- `_normalize_header` on a non-calendar cell:
`str(val).strip().lower()` with whitespace collapsed. -/
def normalize_header_text (v : Value) : String :=
  collapseWs (pyLower (pyStrip (valueToStr v)))

/-- Membership test on an association list (`key in dict`). -/
def assocHas [DecidableEq α] (k : α) (l : List (α × β)) : Bool :=
  l.any (fun p => decide (p.1 = k))

/-- `dict[k] = v`: replace in place if the key exists, else append. -/
def assocSet [DecidableEq α] (k : α) (v : β) (l : List (α × β)) : List (α × β) :=
  if assocHas k l then l.map (fun p => if p.1 = k then (k, v) else p)
  else l ++ [(k, v)]

/-- `dict.get(k)`. -/
def assocFind? [DecidableEq α] (k : α) (l : List (α × β)) : Option β :=
  (l.find? (fun p => decide (p.1 = k))).map (fun p => p.2)

/-- Spanish month abbreviations, `_SPANISH_MONTH_MAP`. -/
def SPANISH_MONTHS : List (String × Nat) :=
  [("ene", 1), ("feb", 2), ("mar", 3), ("abr", 4), ("may", 5), ("jun", 6),
   ("jul", 7), ("ago", 8), ("sep", 9), ("sept", 9), ("oct", 10), ("nov", 11),
   ("dic", 12)]

/-- `_parse_spanish_month_header`: recognize `"abbr.YY"` (case-insensitive
abbreviation, exactly two digits) and return the `(year, month)` key. -/
def parse_spanish_month_header (s : String) : Option (Nat × Nat) :=
  match splitChars (fun c => c = '.') (trimChars s.data) with
  | [a, b] =>
    if b.length = 2 ∧ b.all (fun c => c.isDigit) then
      match assocFind? (pyLower ⟨a⟩) SPANISH_MONTHS with
      | some mo => some (2000 + digitsVal b, mo)
      | Option.none => Option.none
    else Option.none
  | _ => Option.none

/-- First pass of header matching: exact equality of the normalized header
against any candidate pattern of a not-yet-claimed logical name. -/
def match_exact (patterns : List (String × List String))
    (claimed : List (String × Nat)) (norm : String) : Option String :=
  patterns.findSome? (fun np =>
    if claimed.any (fun q => decide (q.1 = np.1)) then Option.none
    else if np.2.any (fun p => decide (p = norm)) then some np.1
    else Option.none)

/-- `p in norm`: substring containment. -/
def strContains (hay pat : String) : Bool :=
  (hay.toList.tails).any (fun t => pat.toList.isPrefixOf t)

/-- Second pass of header matching: substring containment, restricted to
candidate patterns longer than 4 characters. -/
def match_substring (patterns : List (String × List String))
    (claimed : List (String × Nat)) (norm : String) : Option String :=
  patterns.findSome? (fun np =>
    if claimed.any (fun q => decide (q.1 = np.1)) then Option.none
    else if np.2.any (fun p => decide (4 < p.length) && strContains norm p) then some np.1
    else Option.none)

/-- Resolution of one header cell: the exact pass wins; only when it finds
nothing is the substring pass attempted. -/
def header_cell_assign (patterns : List (String × List String))
    (claimed : List (String × Nat)) (norm : String) : Option String :=
  match match_exact patterns claimed norm with
  | some n => some n
  | Option.none => match_substring patterns claimed norm

/-- Output of `discover_headers`: logical-name and month column maps. -/
structure Headers where
  named : List (String × Nat)
  months : List ((Nat × Nat) × Nat)
deriving DecidableEq, Repr

/-- `discover_headers`: scan `header_row` columns `col_start..col_end`,
routing calendar cells into the month map and text cells through the
two-pass pattern matcher.  `parseSpanishMonths` is the Santa Elisa PPTO
flag that additionally recognizes string month headers. -/
def discover_headers (row : Nat → Value) (colStart colEnd : Nat)
    (patterns : List (String × List String)) (parseSpanishMonths : Bool) : Headers :=
  (List.range' colStart (colEnd + 1 - colStart)).foldl (fun h col =>
    match row col with
    | Value.vnone => h
    | Value.vdate dt => { h with months := assocSet (dt.y, dt.m) col h.months }
    | v =>
      let norm := normalize_header_text v
      if parseSpanishMonths then
        match parse_spanish_month_header (valueToStr v) with
        | some ym => { h with months := assocSet ym col h.months }
        | Option.none =>
          match header_cell_assign patterns h.named norm with
          | some name => { h with named := h.named ++ [(name, col)] }
          | Option.none => h
      else
        match header_cell_assign patterns h.named norm with
        | some name => { h with named := h.named ++ [(name, col)] }
        | Option.none => h) ⟨[], []⟩

/-- Iteration order of `sorted(month_cols.items())`: year-month key,
lexicographically (column as tie-break, unreachable since keys are
distinct). -/
def ymLe (a b : (Nat × Nat) × Nat) : Prop :=
  a.1.1 < b.1.1 ∨ (a.1.1 = b.1.1 ∧ (a.1.2 < b.1.2 ∨ (a.1.2 = b.1.2 ∧ a.2 ≤ b.2)))

instance : DecidableRel ymLe := fun a b => by
  unfold ymLe; exact inferInstance

instance : IsTotal ((Nat × Nat) × Nat) ymLe :=
  ⟨by intro a b; unfold ymLe; omega⟩

instance : IsTrans ((Nat × Nat) × Nat) ymLe :=
  ⟨by intro a b c; unfold ymLe; omega⟩

/-- One iteration of the monthly-payment loop: `_safe_float` the cell and
keep one `(month_end, value)` tuple when it reads as a non-zero number. -/
def payment_cell (cellAt : Nat → Value) (ymcol : (Nat × Nat) × Nat) : List (Date × ℚ) :=
  match safe_float (cellAt ymcol.2) with
  | some v => if v ≠ 0 then [(month_end_to_date ymcol.1, v)] else []
  | Option.none => []

/-- The monthly-payment loop shared by every section parser: iterate the
month columns in sorted key order, appending at most one payment tuple per
column. -/
def build_payments (months : List ((Nat × Nat) × Nat)) (cellAt : Nat → Value) :
    List (Date × ℚ) :=
  (List.insertionSort ymLe months).flatMap (payment_cell cellAt)

/-- Unit-key normalization applied to a non-empty key cell:
`str(int(raw))` for numeric cells, `str(raw).strip()` otherwise. -/
def aptoString : Value → String
  | Value.num q => toString (ratTrunc q)
  | v => pyStrip (valueToStr v)

/-- One budget-sheet record, `ParsedExpected` (identical in both
scripts). -/
structure ParsedExpected where
  apto : String
  due_date : Date
  amount : ℚ
deriving DecidableEq, Repr

/-- Python `x or d` for an optional numeric: `None` and `0` both fall to
the default. -/
def pyOr (o : Option ℚ) (d : ℚ) : ℚ :=
  match o with
  | some v => if v = 0 then d else v
  | Option.none => d

/-- Python `x or d` for an optional string: `None` and `""` fall to the
default. -/
def pyOrStr (o : Option String) (d : String) : String :=
  match o with
  | some s => if s = "" then d else s
  | Option.none => d

/-- Python truthiness of an optional string (`None` and `""` are falsy). -/
def optStrFalsy (o : Option String) : Bool :=
  match o with
  | Option.none => true
  | some s => decide (s = "")

/-- `"; ".join(filter(None, parts)) or None`. -/
def pyJoinOrNone (parts : List (Option String)) : Option String :=
  let s := joinSep ("; ") ((parts.filterMap id).filter (fun t => t ≠ ""))
  if s = "" then Option.none else some s

/-- Python tuple comparison on one `(date, amount)` payment observation,
the order used by `sorted(u.actual_payments)`. -/
def payLe (a b : Date × ℚ) : Prop :=
  Date.lex a.1 b.1 ∨ (a.1 = b.1 ∧ a.2 ≤ b.2)

instance : DecidableRel payLe := fun a b => by
  unfold payLe; exact inferInstance

instance : IsTotal (Date × ℚ) payLe :=
  ⟨by
    intro a b
    have h : Date.lex a.1 b.1 ∨ a.1 = b.1 ∨ Date.lex b.1 a.1 := by
      cases ha : a.1 with
      | mk ay am ad =>
        cases hb : b.1 with
        | mk by' bm bd =>
          simp only [Date.lex, Date.mk.injEq]
          omega
    rcases h with h | h | h
    · exact Or.inl (Or.inl h)
    · rcases le_total a.2 b.2 with h2 | h2
      · exact Or.inl (Or.inr ⟨h, h2⟩)
      · exact Or.inr (Or.inr ⟨h.symm, h2⟩)
    · exact Or.inr (Or.inl h)⟩

instance : IsTrans (Date × ℚ) payLe :=
  ⟨by
    intro a b c h1 h2
    have htr : Date.lex a.1 b.1 → Date.lex b.1 c.1 → Date.lex a.1 c.1 := by
      cases a.1 with
      | mk ay am ad =>
        cases b.1 with
        | mk by' bm bd =>
          cases c.1 with
          | mk cy cm cd =>
            simp only [Date.lex, Date.mk.injEq]
            omega
    rcases h1 with h1 | ⟨e1, l1⟩
    · rcases h2 with h2 | ⟨e2, _⟩
      · exact Or.inl (htr h1 h2)
      · exact Or.inl (e2 ▸ h1)
    · rcases h2 with h2 | ⟨e2, l2⟩
      · exact Or.inl (e1 ▸ h2)
      · exact Or.inr ⟨e1.trans e2, le_trans l1 l2⟩⟩

/-- `sorted(u.actual_payments)`: stable sort by the Python tuple order. -/
def sortPayments (l : List (Date × ℚ)) : List (Date × ℚ) :=
  List.insertionSort payLe l

/-- `min(pdate for pdate, _ in u.actual_payments)` (Python `min` keeps the
first minimum). -/
def min_payment_date (ps : List (Date × ℚ)) : Option Date :=
  match ps.map (fun p => p.1) with
  | [] => Option.none
  | d :: ds => some (ds.foldl (fun a b => if Date.lex b a then b else a) d)

/-! ### Destination rows and the `TableStore` model

Store-assigned identifiers are embedded as the rows' natural keys (the
conflict keys the scripts upsert on): a unit's id is its unit number, a
client's id its full name, a sale's id the `SaleId` key below.  Only
identifier equality ever matters to the loader, so this keeps every
lookup faithful while staying executable. -/

structure UnitRow where
  project_id : String
  unit_number : String
  price_with_tax : ℚ
  price_without_tax : ℚ
  down_payment_amount : ℚ
  status : String
deriving DecidableEq, Repr

structure ClientRow where
  full_name : String
deriving DecidableEq, Repr

/-- Natural-key identifier of a sale row: active sales are keyed by unit
(partial unique index), cancelled ones by unit and client. -/
inductive SaleId where
  | active (unit_id : String)
  | cancelled (unit_id client_id : String)
deriving DecidableEq, Repr

structure SaleRow where
  project_id : String
  unit_id : String
  client_id : String
  sales_rep_id : String
  sale_date : Date
  price_with_tax : ℚ
  price_without_tax : ℚ
  down_payment_amount : ℚ
  financed_amount : ℚ
  status : String
  referral_applies : Bool
  caso_especial : Bool
  caso_especial_type : Option String
  observaciones : Option String
  notas : Option String
deriving DecidableEq, Repr

structure PaymentRow where
  sale_id : SaleId
  payment_date : Date
  amount : ℚ
  payment_type : String
  notes : String
deriving DecidableEq, Repr

structure ExpRow where
  project_id : String
  unit_number : String
  due_date : Date
  amount : ℚ
  installment_number : Nat
  schedule_type : String
deriving DecidableEq, Repr

/-- The destination store: one list of rows per table. -/
structure Store where
  projects : List (String × String)
  sales_reps : List (String × String)
  units : List UnitRow
  clients : List ClientRow
  sales : List SaleRow
  payments : List PaymentRow
  expected : List ExpRow
deriving DecidableEq, Repr

def Store.empty : Store := ⟨[], [], [], [], [], [], []⟩

/-- Does some row of `l` carry key `k`? -/
def hasKey (key : α → κ) [DecidableEq κ] (k : κ) (l : List α) : Bool :=
  l.any (fun x => decide (key x = k))

/-- `upsert` with conflict target `key`: update the conflicting row in
place, or append a fresh row. -/
def upsertBy (key : α → κ) [DecidableEq κ] (r : α) (l : List α) : List α :=
  if hasKey key (key r) l then l.map (fun x => if key x = key r then r else x)
  else l ++ [r]

/-- A batch of upserts, in order. -/
def foldUpsert (key : α → κ) [DecidableEq κ] (rs : List α) (l : List α) : List α :=
  rs.foldl (fun acc r => upsertBy key r acc) l

/-- An active sale row for this unit exists (the partial unique index's
conflict condition). -/
def hasActiveKey (uid : String) (l : List SaleRow) : Bool :=
  l.any (fun x => decide (x.status = "active" ∧ x.unit_id = uid))

/-- A cancelled sale for this `(unit, client)` pair exists (the
read-before-write select's condition). -/
def hasCancelledKey (uid cid : String) (l : List SaleRow) : Bool :=
  l.any (fun x => decide (x.unit_id = uid ∧ x.client_id = cid ∧ x.status = "cancelled"))

/-- Rows in the active-sales bucket. -/
def countActive (l : List SaleRow) : Nat :=
  l.countP (fun x => decide (x.status = "active"))

/-- Rows in the cancelled-sales bucket. -/
def countCancelled (l : List SaleRow) : Nat :=
  l.countP (fun x => decide (x.status = "cancelled"))

/-- `upsert(sales, on_conflict=unit_id)` under the partial unique index
`UNIQUE(unit_id) WHERE status = 'active'`: conflicts are detected against
active rows only. -/
def upsertActiveSale (r : SaleRow) (l : List SaleRow) : List SaleRow :=
  if hasActiveKey r.unit_id l then
    l.map (fun x => if x.status = "active" ∧ x.unit_id = r.unit_id then r else x)
  else l ++ [r]

/-- The cancelled-sale read-before-write: select on
`(unit_id, client_id, status='cancelled')`, reuse if found, insert
otherwise. -/
def insertCancelledSale (r : SaleRow) (l : List SaleRow) : List SaleRow :=
  if hasCancelledKey r.unit_id r.client_id l then l
  else l ++ [r]

/-- The sales phase of `insert_sales`: batch-upsert the active rows, then
run the check-then-insert loop over the cancelled rows. -/
def apply_sales (activeRows cancelledRows : List SaleRow) (l : List SaleRow) : List SaleRow :=
  cancelledRows.foldl (fun acc r => insertCancelledSale r acc)
    (activeRows.foldl (fun acc r => upsertActiveSale r acc) l)

/-- `unique_clients` of `upsert_clients`: first-occurrence-ordered distinct
truthy client names across every section. -/
def unique_clients' {U : Type} (cliente : U → Option String) (all_units : List U) : List String :=
  all_units.foldl (fun acc u =>
    match cliente u with
    | some c => if c ≠ "" ∧ ¬ c ∈ acc then acc ++ [c] else acc
    | Option.none => acc) []

/-- One record of the grouping step of `upsert_expected_payments`:
`by_apto.setdefault(r.apto, []).append(r)`. -/
def group_step (acc : List (String × List ParsedExpected)) (r : ParsedExpected) :
    List (String × List ParsedExpected) :=
  if assocHas r.apto acc then
    acc.map (fun g => if g.1 = r.apto then (g.1, g.2 ++ [r]) else g)
  else acc ++ [(r.apto, [r])]

/-- Grouping step of `upsert_expected_payments`: `setdefault`-style dict
of apto → records, insertion-ordered. -/
def group_by_apto (expected : List ParsedExpected) : List (String × List ParsedExpected) :=
  expected.foldl group_step []

/-- `sorted(records, key=lambda x: x.due_date)` order. -/
def expLe (a b : ParsedExpected) : Prop :=
  Date.lexLe a.due_date b.due_date

instance : DecidableRel expLe := fun a b => by
  unfold expLe; exact inferInstance

instance : IsTotal ParsedExpected expLe :=
  ⟨fun a b => total_of Date.lexLe a.due_date b.due_date⟩

instance : IsTrans ParsedExpected expLe :=
  ⟨fun _ _ _ h1 h2 => trans_of Date.lexLe h1 h2⟩

/-- One apto's rows of `upsert_expected_payments`: the group sorted by due
date, each record numbered consecutively from 1. -/
def expected_block (projectName : String) (g : String × List ParsedExpected) :
    List ExpRow :=
  ((List.insertionSort expLe g.2).enum).map (fun ir =>
    { project_id := projectName, unit_number := g.1, due_date := ir.2.due_date,
      amount := ir.2.amount, installment_number := ir.1 + 1,
      schedule_type := "budget" })

/-- Row building of `upsert_expected_payments` (identical in both
scripts): group by apto, sort each group by due date, and number the
installments from 1. -/
def build_expected_rows (projectName : String) (expected : List ParsedExpected) :
    List ExpRow :=
  (group_by_apto expected).flatMap (expected_block projectName)

/-- Conflict target of the expected-payments upsert. -/
def expKey (r : ExpRow) : String × String × Date × String :=
  (r.project_id, r.unit_number, r.due_date, r.schedule_type)

/-- `upsert_expected_payments` against the store's table. -/
def upsert_expected_payments (projectName : String) (expected : List ParsedExpected)
    (l : List ExpRow) : List ExpRow :=
  foldUpsert expKey (build_expected_rows projectName expected) l

/-- Shared shape of `ValidationReport` findings; each constructor carries
the data the Python interpolates into its message string. -/
inductive Finding where
  | dupApto (aptos : List String)
  | unknownStatus (apto status : String)
  | desistNotInMain (aptos : List String)
  | pptoNotInActuals (aptos : List String)
  | actualsNotInPpto (aptos : List String)
  | soldNoClient (aptos : List String)
  | orphanDevol (pairs : List (String × String))
deriving DecidableEq, Repr

structure ValidationReport where
  errors : List Finding
  warnings : List Finding
deriving DecidableEq, Repr

/-- `len(errors) > 0`. -/
def ValidationReport.has_errors (r : ValidationReport) : Bool :=
  decide (r.errors ≠ [])

/-! ## Boulevard (`etl_boulevard.py`) -/

namespace Blvd

def PROJECT_NAME : String := "boulevard"

def PROJECT_DISPLAY_NAME : String := "Boulevard 5"

def B5_HEADER_ROW : Nat := 6
def B5_DATA_START : Nat := 7
def B5_DATA_END : Nat := 304
def B5_DESIST_HEADER : Nat := 319
def B5_DESIST_START : Nat := 320
def B5_DESIST_END : Nat := 351
def B5_PROB_DESIST_HEADER : Nat := 357
def B5_PROB_DESIST_START : Nat := 358
def B5_PROB_DESIST_END : Nat := 366
def PPTO_HEADER_ROW : Nat := 1
def PPTO_DATA_START : Nat := 2
def PPTO_DATA_END : Nat := 299

def STATUS_TO_UNIT_STATUS : List (String × String) :=
  [("1.disponible", "available"),
   ("2.reserva", "reserved"),
   ("2. reserva", "reserved"),
   ("2,reserva", "reserved"),
   ("4.plan de pagos", "sold"),
   ("desistimiento", "cancelled")]

def STATUS_TO_SALE_STATUS : List (String × String) :=
  [("2.reserva", "active"),
   ("2. reserva", "active"),
   ("2,reserva", "active"),
   ("4.plan de pagos", "active"),
   ("desistimiento", "cancelled")]

def VENDEDOR_CANONICAL : List (String × Option String) :=
  [("ronaldo", some ("Ronaldo Ogaldez")),
   ("ronaldo ogaldez", some ("Ronaldo Ogaldez")),
   ("anahi cisneros", some ("Anahí Cisneros")),
   ("anahí cisneros", some ("Anahí Cisneros")),
   ("**", Option.none),
   ("sin datos", Option.none)]

def B5_HEADER_PATTERNS : List (String × List String) :=
  [("apto", ["apto", "apto."]),
   ("tipo", ["tipo", "tipo.", "modelo"]),
   ("notas", ["notas"]),
   ("vendedor", ["vendedor"]),
   ("cliente", ["cliente"]),
   ("fecha_reserva", ["fecha reserva", "fecha"]),
   ("estatus", ["estatus", "tipo de plan"]),
   ("precio_venta", ["precio de venta", "p. venta", "p.venta"]),
   ("enganche", ["enganche"]),
   ("total_enganches", ["total enganches y reservas"]),
   ("saldo_financiar", ["saldo a financiar por el banco"]),
   ("cuotas_pactadas", ["cuotas pactadas"]),
   ("monto_reserva_pactado", ["monto de reserva pactado"]),
   ("monto_cuota_pactada", ["monto de cuota pactada"]),
   ("cuotas_pagadas", ["cuotas pagadas"]),
   ("caso_especial", ["caso especial / f&f", "caso especial"]),
   ("observaciones", ["observaciones"]),
   ("iva", ["iva"]),
   ("timbres", ["timbres"])]

def PPTO_HEADER_PATTERNS : List (String × List String) :=
  [("apto", ["apto", "apto."]),
   ("estatus", ["estatus"])]

/-- `ParsedUnit` of `etl_boulevard.py`. -/
structure ParsedUnit where
  apto : String
  tipo : Option String := Option.none
  vendedor : Option String := Option.none
  cliente : Option String := Option.none
  fecha_reserva : Option Date := Option.none
  estatus_raw : Option String := Option.none
  precio_venta : Option ℚ := Option.none
  enganche : Option ℚ := Option.none
  saldo_financiar : Option ℚ := Option.none
  cuotas_pactadas : Option Int := Option.none
  monto_reserva_pactado : Option ℚ := Option.none
  monto_cuota_pactada : Option ℚ := Option.none
  cuotas_pagadas : Option Int := Option.none
  caso_especial : Option String := Option.none
  observaciones : Option String := Option.none
  notas : Option String := Option.none
  iva : Option ℚ := Option.none
  timbres : Option ℚ := Option.none
  actual_payments : List (Date × ℚ) := []
  source_section : String := "main"
deriving DecidableEq, Repr

/-- The row-local `_get` closure: read a named column if it resolved. -/
def getNamed (g : Grid) (named : List (String × Nat)) (row : Nat) (name : String) : Value :=
  match assocFind? name named with
  | some col => g row col
  | Option.none => Value.vnone

/-- One data row of `parse_b5_section`: skip on an absent or blank unit
key, otherwise build the record. -/
def parse_b5_row (g : Grid) (named : List (String × Nat))
    (months : List ((Nat × Nat) × Nat)) (aptoCol row : Nat)
    (sectionName : String) : Option ParsedUnit :=
  match g row aptoCol with
  | Value.vnone => Option.none
  | v =>
    let apto := aptoString v
    if apto = "" then Option.none
    else
      some { apto := apto,
             tipo := safe_str (getNamed g named row ("tipo")),
             vendedor := safe_str (getNamed g named row ("vendedor")),
             cliente := safe_str (getNamed g named row ("cliente")),
             fecha_reserva := safe_date (getNamed g named row ("fecha_reserva")),
             estatus_raw := safe_str (getNamed g named row ("estatus")),
             precio_venta := safe_float (getNamed g named row ("precio_venta")),
             enganche := safe_float (getNamed g named row ("enganche")),
             saldo_financiar := safe_float (getNamed g named row ("saldo_financiar")),
             cuotas_pactadas := safe_int (getNamed g named row ("cuotas_pactadas")),
             monto_reserva_pactado := safe_float (getNamed g named row ("monto_reserva_pactado")),
             monto_cuota_pactada := safe_float (getNamed g named row ("monto_cuota_pactada")),
             cuotas_pagadas := safe_int (getNamed g named row ("cuotas_pagadas")),
             caso_especial := safe_str (getNamed g named row ("caso_especial")),
             observaciones := safe_str (getNamed g named row ("observaciones")),
             notas := safe_str (getNamed g named row ("notas")),
             iva := safe_float (getNamed g named row ("iva")),
             timbres := safe_float (getNamed g named row ("timbres")),
             actual_payments := build_payments months (fun c => g row c),
             source_section := sectionName }

/-- `parse_b5_section`: discover headers, inherit the month map for
sub-sections, bail out if the `apto` header is missing, and walk the data
rows in order. -/
def parse_b5_section (g : Grid) (headerRow dataStart dataEnd colStart colEnd : Nat)
    (sectionName : String)
    (monthColsOverride : Option (List ((Nat × Nat) × Nat))) : List ParsedUnit :=
  let h := discover_headers (g headerRow) colStart colEnd B5_HEADER_PATTERNS false
  let months :=
    match monthColsOverride with
    | some m => m
    | Option.none => h.months
  match assocFind? ("apto") h.named with
  | Option.none => []
  | some aptoCol =>
    (List.range' dataStart (dataEnd + 1 - dataStart)).filterMap
      (fun row => parse_b5_row g h.named months aptoCol row sectionName)

/-- `parse_ppto`: the budget-sheet walk.  Note there is no blank-key skip
after the `None` check — a whitespace-only key cell normalizes to the
empty string and still emits records. -/
def parse_ppto (g : Grid) : List ParsedExpected :=
  let h := discover_headers (g PPTO_HEADER_ROW) 1 62 PPTO_HEADER_PATTERNS false
  match assocFind? ("apto") h.named with
  | Option.none => []
  | some aptoCol =>
    (List.range' PPTO_DATA_START (PPTO_DATA_END + 1 - PPTO_DATA_START)).flatMap
      (fun row =>
        match g row aptoCol with
        | Value.vnone => []
        | v =>
          let apto := aptoString v
          (build_payments h.months (fun c => g row c)).map
            (fun p => { apto := apto, due_date := p.1, amount := p.2 }))

def normalize_unit_status (raw : Option String) : String :=
  match raw with
  | Option.none => "available"
  | some r => (assocFind? (pyLower (pyStrip r)) STATUS_TO_UNIT_STATUS).getD ("available")

def normalize_sale_status (raw : Option String) : Option String :=
  match raw with
  | Option.none => Option.none
  | some r => assocFind? (pyLower (pyStrip r)) STATUS_TO_SALE_STATUS

def normalize_vendedor (raw : Option String) : Option String :=
  match raw with
  | Option.none => Option.none
  | some r =>
    match assocFind? (pyLower (pyStrip r)) VENDEDOR_CANONICAL with
    | some (some canonical) => some canonical
    | some Option.none => Option.none
    | Option.none => some (pyStrip r)

/-- `validate` of `etl_boulevard.py`; findings carry the interpolated data
(the resold-units overlap of step 2 is logged as INFO only and produces no
finding). -/
def validate (main_units desist_units prob_desist_units : List ParsedUnit)
    (expected : List ParsedExpected) : ValidationReport :=
  let main_aptos := main_units.map (fun u => u.apto)
  let dupes := main_aptos.dedup.filter (fun a => decide (1 < main_aptos.count a))
  let errors1 : List Finding :=
    if dupes ≠ [] then [Finding.dupApto dupes] else []
  let desist_aptos := (((desist_units ++ prob_desist_units).map (fun u => u.apto))).dedup
  let desist_only := desist_aptos.filter (fun a => decide (¬ a ∈ main_aptos))
  let w1 : List Finding :=
    if desist_only ≠ [] then [Finding.desistNotInMain desist_only] else []
  let ppto_aptos := (expected.map (fun r => r.apto)).dedup
  let ppto_only := ppto_aptos.filter (fun a => decide (¬ (a ∈ main_aptos ∨ a ∈ desist_aptos)))
  let b5_all := (main_aptos ++ (desist_units ++ prob_desist_units).map (fun u => u.apto)).dedup
  let b5_only := b5_all.filter (fun a => decide (¬ a ∈ ppto_aptos))
  let w2 : List Finding :=
    if ppto_only ≠ [] then [Finding.pptoNotInActuals ppto_only] else []
  let w3 : List Finding :=
    if b5_only ≠ [] then [Finding.actualsNotInPpto b5_only] else []
  let sold_no_client :=
    (main_units.filter (fun u =>
      (normalize_sale_status u.estatus_raw).isSome && optStrFalsy u.cliente)).map
      (fun u => u.apto)
  let w4 : List Finding :=
    if sold_no_client ≠ [] then [Finding.soldNoClient sold_no_client] else []
  let errors2 : List Finding :=
    main_units.filterMap (fun u =>
      match u.estatus_raw with
      | some s =>
        if s ≠ "" ∧ ¬ (assocHas (pyLower (pyStrip s)) STATUS_TO_UNIT_STATUS = true) then
          some (Finding.unknownStatus u.apto s)
        else Option.none
      | Option.none => Option.none)
  { errors := errors1 ++ errors2, warnings := w1 ++ w2 ++ w3 ++ w4 }

/-! ### `SupabaseLoader` (Boulevard) -/

/-- Row building of `upsert_units` (main section only): tax subtracted
explicitly from IVA and Timbres columns. -/
def unit_row (u : ParsedUnit) : UnitRow :=
  let precio := pyOr u.precio_venta 0
  let tax := round2 (pyOr u.iva 0 + pyOr u.timbres 0)
  { project_id := PROJECT_NAME,
    unit_number := u.apto,
    price_with_tax := precio,
    price_without_tax := round2 (precio - tax),
    down_payment_amount := pyOr u.enganche 0,
    status := normalize_unit_status u.estatus_raw }

/-- `upsert_units` against the units table, conflict key
`(project_id, unit_number)`. -/
def upsert_units (main_units : List ParsedUnit) (units : List UnitRow) : List UnitRow :=
  foldUpsert (fun r => (r.project_id, r.unit_number)) (main_units.map unit_row) units

/-- The `self.unit_ids` map captured from the upsert's returned rows; in
the natural-key model a lookup succeeds exactly for main-section aptos. -/
def unit_ids (main_units : List ParsedUnit) : List String :=
  main_units.map (fun u => u.apto)

def unique_clients (all_units : List ParsedUnit) : List String :=
  unique_clients' (fun u => u.cliente) all_units

def upsert_clients (all_units : List ParsedUnit) (clients : List ClientRow) : List ClientRow :=
  foldUpsert (fun r => r.full_name) ((unique_clients all_units).map ClientRow.mk) clients

/-- The `self.client_ids` map; a lookup succeeds exactly for the distinct
truthy client names. -/
def client_ids (all_units : List ParsedUnit) : List String :=
  unique_clients all_units

def REP_NAME_MAP : List (String × String) :=
  [("walk_in", "Puerta Abierta"),
   ("unknown", "Unknown / Directo"),
   ("05", "Sales Rep 05"),
   ("06", "Sales Rep 06"),
   ("35", "Sales Rep 35"),
   ("GV1", "Sales Rep GV1")]

def unique_reps (all_units : List ParsedUnit) : List (String × String) :=
  all_units.foldl (fun acc u =>
    let rid := pyOrStr (normalize_vendedor u.vendedor) ("unknown")
    if ¬ assocHas rid acc then acc ++ [(rid, (assocFind? rid REP_NAME_MAP).getD rid)]
    else acc) []

def upsert_sales_reps (all_units : List ParsedUnit) (reps : List (String × String)) :
    List (String × String) :=
  foldUpsert (fun r => r.1) (unique_reps all_units) reps

/-- `_build_sale_row` (Boulevard): skip when the unit or client identifier
is unresolved; a missing `fecha_reserva` falls back to the constant
`"2023-03-01"`. -/
def build_sale_row (uids cids : List String) (u : ParsedUnit) : Option SaleRow :=
  if ¬ u.apto ∈ uids then Option.none
  else
    match u.cliente with
    | Option.none => Option.none
    | some c =>
      if c = "" ∨ ¬ c ∈ cids then Option.none
      else
        let financed := pyOr u.saldo_financiar
          (match u.precio_venta with
           | some p => if p ≠ 0 then round2 (pyOr u.precio_venta 0 - pyOr u.enganche 0) else 0
           | Option.none => 0)
        let sale_status := pyOrStr (normalize_sale_status u.estatus_raw) ("active")
        let notes_parts : List String :=
          if u.source_section ≠ "main" then ["Source: " ++ u.source_section] else []
        let precio := pyOr u.precio_venta 0
        let tax := round2 (pyOr u.iva 0 + pyOr u.timbres 0)
        some { project_id := PROJECT_NAME,
               unit_id := u.apto,
               client_id := c,
               sales_rep_id := pyOrStr (normalize_vendedor u.vendedor) ("unknown"),
               sale_date :=
                 match u.fecha_reserva with
                 | some dt => dt
                 | Option.none => ⟨2023, 3, 1⟩,
               price_with_tax := precio,
               price_without_tax := round2 (precio - tax),
               down_payment_amount := pyOr u.enganche 0,
               financed_amount := financed,
               status := sale_status,
               referral_applies := false,
               caso_especial := u.caso_especial.isSome,
               caso_especial_type := u.caso_especial,
               observaciones := u.observaciones,
               notas := pyJoinOrNone
                 [u.notas,
                  if notes_parts ≠ [] then some (joinSep ("; ") notes_parts) else Option.none] }

/-- The `sellable` filter of `insert_sales`. -/
def sellable (all_units : List ParsedUnit) : List ParsedUnit :=
  all_units.filter (fun u => (normalize_sale_status u.estatus_raw).isSome)

/-- Sellable records paired with their built sale rows (records whose row
fails to build are skipped). -/
def prepared_sales (uids cids : List String) (all_units : List ParsedUnit) :
    List (ParsedUnit × SaleRow) :=
  (sellable all_units).filterMap (fun u =>
    (build_sale_row uids cids u).map (fun r => (u, r)))

def active_rows (uids cids : List String) (all_units : List ParsedUnit) : List SaleRow :=
  ((prepared_sales uids cids all_units).map (fun p => p.2)).filter
    (fun r => decide (r.status = "active"))

def cancelled_rows (uids cids : List String) (all_units : List ParsedUnit) : List SaleRow :=
  ((prepared_sales uids cids all_units).map (fun p => p.2)).filter
    (fun r => decide (¬ r.status = "active"))

/-- `insert_sales` against the sales table. -/
def insert_sales (uids cids : List String) (all_units : List ParsedUnit)
    (sales : List SaleRow) : List SaleRow :=
  apply_sales (active_rows uids cids all_units) (cancelled_rows uids cids all_units) sales

/-- The `self._sale_ids` object-identity map after `insert_sales`: each
processed record resolves to its own sale identifier; in the natural-key
model that identifier is a function of the record. -/
def sale_id_of (uids cids : List String) (u : ParsedUnit) : Option SaleId :=
  if (normalize_sale_status u.estatus_raw).isSome then
    match build_sale_row uids cids u with
    | some r =>
      some (if r.status = "active" then SaleId.active r.unit_id
            else SaleId.cancelled r.unit_id r.client_id)
    | Option.none => Option.none
  else Option.none

/-- The per-record segment of `insert_payments` (Boulevard): sort the
record's payments, first gets type `reservation`, the rest
`down_payment`. -/
def payment_rows_for (sid : SaleId) (u : ParsedUnit) : List PaymentRow :=
  ((sortPayments u.actual_payments).enum).map (fun ip =>
    { sale_id := sid,
      payment_date := ip.2.1,
      amount := ip.2.2,
      payment_type := if ip.1 = 0 then "reservation" else "down_payment",
      notes := "ETL import from " ++ u.source_section })

/-- All rows built by `insert_payments`: records without payments or
without a resolved sale contribute nothing. -/
def insert_payment_rows (uids cids : List String) (all_units : List ParsedUnit) :
    List PaymentRow :=
  all_units.flatMap (fun u =>
    if u.actual_payments = [] then []
    else
      match sale_id_of uids cids u with
      | some sid => payment_rows_for sid u
      | Option.none => [])

/-- The parsed dataset handed to the loader (post-parse, after `main`'s
estatus forcing on the desistimiento sections). -/
structure Dataset where
  main : List ParsedUnit
  desist : List ParsedUnit
  prob : List ParsedUnit
  expected : List ParsedExpected
deriving DecidableEq, Repr

/-- `all_units = main_units + desist_units + prob_desist`. -/
def Dataset.all (ds : Dataset) : List ParsedUnit :=
  ds.main ++ ds.desist ++ ds.prob

/-- One `--execute` run of the loader's write sequence, in dependency
order, against a store. -/
def load_run (ds : Dataset) (s : Store) : Store :=
  let uids := unit_ids ds.main
  let cids := client_ids ds.all
  { projects := upsertBy (fun p => p.1) (PROJECT_NAME, PROJECT_DISPLAY_NAME) s.projects,
    sales_reps := upsert_sales_reps ds.all s.sales_reps,
    units := upsert_units ds.main s.units,
    clients := upsert_clients ds.all s.clients,
    sales := insert_sales uids cids ds.all s.sales,
    payments := s.payments ++ insert_payment_rows uids cids ds.all,
    expected := upsert_expected_payments PROJECT_NAME ds.expected s.expected }

/-- The gate of `main` from validation onward: abort with exit 1 and no
write on fatal findings; dry-run never writes; execute mode requires
credentials and then performs the full write sequence. -/
def run_main (ds : Dataset) (execute creds : Bool) (s : Store) : Nat × Store :=
  let report := validate ds.main ds.desist ds.prob ds.expected
  if report.has_errors then (1, s)
  else if ¬ execute then (0, s)
  else if ¬ creds then (1, s)
  else (0, load_run ds s)

end Blvd

/-! ## Santa Elisa (`etl_santa_elisa.py`) -/

namespace SE

def PROJECT_NAME : String := "santa_elisa"

def PROJECT_DISPLAY_NAME : String := "Santa Elisa"

def SE_HEADER_ROW : Nat := 4
def SE_DATA_START : Nat := 5
def SE_DATA_END : Nat := 79
def SE_COL_START : Nat := 2
def SE_COL_END : Nat := 62
def SE_DESIST_START : Nat := 85
def SE_DESIST_END : Nat := 100
def SE_DEVOL_START : Nat := 103
def SE_DEVOL_END : Nat := 106
def PPTO_HEADER_ROW : Nat := 4
def PPTO_DATA_START : Nat := 5
def PPTO_DATA_END : Nat := 79
def PPTO_COL_START : Nat := 1
def PPTO_COL_END : Nat := 38

/-- `TAX_DIVISOR = 1.093`. -/
def TAX_DIVISOR : ℚ := 1093 / 1000

def STATUS_TO_UNIT_STATUS : List (String × String) :=
  [("1.disponible", "available"),
   ("2.reserva", "reserved"),
   ("2. reserva", "reserved"),
   ("2,reserva", "reserved"),
   ("2.reservado", "reserved"),
   ("2. reservado", "reserved"),
   ("4.plan de pagos", "sold"),
   ("desistimiento", "cancelled")]

def STATUS_TO_SALE_STATUS : List (String × String) :=
  [("2.reserva", "active"),
   ("2. reserva", "active"),
   ("2,reserva", "active"),
   ("2.reservado", "active"),
   ("2. reservado", "active"),
   ("4.plan de pagos", "active"),
   ("desistimiento", "cancelled")]

def VENDEDOR_CANONICAL : List (String × Option String) :=
  [("noemi m.", some ("Noemí Menendez")),
   ("noemí menendez", some ("Noemí Menendez")),
   ("paula h.", some ("Paula Hernández")),
   ("paula hernández", some ("Paula Hernández")),
   ("paula hernandez", some ("Paula Hernández")),
   ("andrea g.", some ("Andrea Gonzalez")),
   ("andrea gonzalez", some ("Andrea Gonzalez")),
   ("antonio r", some ("Antonio Rada")),
   ("antonio rada", some ("Antonio Rada")),
   ("eder v.", some ("Eder Veliz")),
   ("eder daniel v.", some ("Eder Veliz")),
   ("eder veliz", some ("Eder Veliz")),
   ("efren sanchez", some ("Efren Sánchez")),
   ("efren sánchez", some ("Efren Sánchez")),
   ("efren sanchéz", some ("Efren Sánchez")),
   ("efrén sanchez", some ("Efren Sánchez")),
   ("ricardo o.", some ("Ricardo O.")),
   ("francisco s.", some ("Francisco S.")),
   ("lilian g.", some ("Lilian G.")),
   ("**", Option.none),
   ("sin datos", Option.none)]

def SE_HEADER_PATTERNS : List (String × List String) :=
  [("apto", ["apto", "apto."]),
   ("tipo", ["tipo", "tipo.", "modelo"]),
   ("vendedor", ["vendedor"]),
   ("cliente", ["cliente"]),
   ("fecha_reserva", ["reservado", "fecha reserva", "fecha"]),
   ("estatus", ["estatus", "tipo de plan"]),
   ("precio_venta", ["precio de venta", "p. venta", "p.venta"]),
   ("enganche", ["enganche"]),
   ("saldo_financiar", ["monto a financiar por banco", "saldo a financiar por el banco"]),
   ("cuotas_pactadas", ["cuotas pactadas"]),
   ("cuotas_pagadas", ["cuotas pagadas"])]

def PPTO_HEADER_PATTERNS : List (String × List String) :=
  [("apto", ["apto", "apto."])]

/-- `ParsedUnit` of `etl_santa_elisa.py`. -/
structure ParsedUnit where
  apto : String
  tipo : Option String := Option.none
  vendedor : Option String := Option.none
  cliente : Option String := Option.none
  fecha_reserva : Option Date := Option.none
  estatus_raw : Option String := Option.none
  precio_venta : Option ℚ := Option.none
  enganche : Option ℚ := Option.none
  saldo_financiar : Option ℚ := Option.none
  cuotas_pactadas : Option Int := Option.none
  cuotas_pagadas : Option Int := Option.none
  actual_payments : List (Date × ℚ) := []
  source_section : String := "main"
deriving DecidableEq, Repr

/-- One data row of `parse_actuals_section`. -/
def parse_actuals_row (g : Grid) (named : List (String × Nat))
    (months : List ((Nat × Nat) × Nat)) (aptoCol row : Nat)
    (sectionName : String) : Option ParsedUnit :=
  match g row aptoCol with
  | Value.vnone => Option.none
  | v =>
    let apto := aptoString v
    if apto = "" then Option.none
    else
      some { apto := apto,
             tipo := safe_str (Blvd.getNamed g named row ("tipo")),
             vendedor := safe_str (Blvd.getNamed g named row ("vendedor")),
             cliente := safe_str (Blvd.getNamed g named row ("cliente")),
             fecha_reserva := safe_date (Blvd.getNamed g named row ("fecha_reserva")),
             estatus_raw := safe_str (Blvd.getNamed g named row ("estatus")),
             precio_venta := safe_float (Blvd.getNamed g named row ("precio_venta")),
             enganche := safe_float (Blvd.getNamed g named row ("enganche")),
             saldo_financiar := safe_float (Blvd.getNamed g named row ("saldo_financiar")),
             cuotas_pactadas := safe_int (Blvd.getNamed g named row ("cuotas_pactadas")),
             cuotas_pagadas := safe_int (Blvd.getNamed g named row ("cuotas_pagadas")),
             actual_payments := build_payments months (fun c => g row c),
             source_section := sectionName }

/-- `parse_actuals_section`. -/
def parse_actuals_section (g : Grid) (headerRow dataStart dataEnd colStart colEnd : Nat)
    (sectionName : String)
    (monthColsOverride : Option (List ((Nat × Nat) × Nat))) : List ParsedUnit :=
  let h := discover_headers (g headerRow) colStart colEnd SE_HEADER_PATTERNS false
  let months :=
    match monthColsOverride with
    | some m => m
    | Option.none => h.months
  match assocFind? ("apto") h.named with
  | Option.none => []
  | some aptoCol =>
    (List.range' dataStart (dataEnd + 1 - dataStart)).filterMap
      (fun row => parse_actuals_row g h.named months aptoCol row sectionName)

/-- `parse_ppto` (Santa Elisa): Spanish string month headers are enabled;
like the Boulevard variant there is no blank-key skip. -/
def parse_ppto (g : Grid) : List ParsedExpected :=
  let h := discover_headers (g PPTO_HEADER_ROW) PPTO_COL_START PPTO_COL_END
    PPTO_HEADER_PATTERNS true
  match assocFind? ("apto") h.named with
  | Option.none => []
  | some aptoCol =>
    (List.range' PPTO_DATA_START (PPTO_DATA_END + 1 - PPTO_DATA_START)).flatMap
      (fun row =>
        match g row aptoCol with
        | Value.vnone => []
        | v =>
          let apto := aptoString v
          (build_payments h.months (fun c => g row c)).map
            (fun p => { apto := apto, due_date := p.1, amount := p.2 }))

def normalize_unit_status (raw : Option String) : String :=
  match raw with
  | Option.none => "available"
  | some r => (assocFind? (pyLower (pyStrip r)) STATUS_TO_UNIT_STATUS).getD ("available")

def normalize_sale_status (raw : Option String) : Option String :=
  match raw with
  | Option.none => Option.none
  | some r => assocFind? (pyLower (pyStrip r)) STATUS_TO_SALE_STATUS

def normalize_vendedor (raw : Option String) : Option String :=
  match raw with
  | Option.none => Option.none
  | some r =>
    match assocFind? (pyLower (pyStrip r)) VENDEDOR_CANONICAL with
    | some (some canonical) => some canonical
    | some Option.none => Option.none
    | Option.none => some (pyStrip r)

/-- `validate` of `etl_santa_elisa.py` (adds the orphan-devolución check;
its step-2 resold overlap uses the desist section only). -/
def validate (main_units desist_units devol_units : List ParsedUnit)
    (expected : List ParsedExpected) : ValidationReport :=
  let main_aptos := main_units.map (fun u => u.apto)
  let dupes := main_aptos.dedup.filter (fun a => decide (1 < main_aptos.count a))
  let errors1 : List Finding :=
    if dupes ≠ [] then [Finding.dupApto dupes] else []
  let desist_aptos := ((desist_units.map (fun u => u.apto))).dedup
  let desist_only := desist_aptos.filter (fun a => decide (¬ a ∈ main_aptos))
  let w1 : List Finding :=
    if desist_only ≠ [] then [Finding.desistNotInMain desist_only] else []
  let ppto_aptos := (expected.map (fun r => r.apto)).dedup
  let ppto_only := ppto_aptos.filter (fun a => decide (¬ (a ∈ main_aptos ∨ a ∈ desist_aptos)))
  let actuals_all := (main_aptos ++ desist_units.map (fun u => u.apto)).dedup
  let actuals_only := actuals_all.filter (fun a => decide (¬ a ∈ ppto_aptos))
  let w2 : List Finding :=
    if ppto_only ≠ [] then [Finding.pptoNotInActuals ppto_only] else []
  let w3 : List Finding :=
    if actuals_only ≠ [] then [Finding.actualsNotInPpto actuals_only] else []
  let sold_no_client :=
    (main_units.filter (fun u =>
      (normalize_sale_status u.estatus_raw).isSome && optStrFalsy u.cliente)).map
      (fun u => u.apto)
  let w4 : List Finding :=
    if sold_no_client ≠ [] then [Finding.soldNoClient sold_no_client] else []
  let errors2 : List Finding :=
    main_units.filterMap (fun u =>
      match u.estatus_raw with
      | some s =>
        if s ≠ "" ∧ ¬ (assocHas (pyLower (pyStrip s)) STATUS_TO_UNIT_STATUS = true) then
          some (Finding.unknownStatus u.apto s)
        else Option.none
      | Option.none => Option.none)
  let devol_pairs := (devol_units.filterMap (fun u =>
      u.cliente.map (fun c => (u.apto, c)))).dedup
  let desist_pairs := (desist_units.filterMap (fun u =>
      u.cliente.map (fun c => (u.apto, c)))).dedup
  let orphan := devol_pairs.filter (fun p : String × String => decide (¬ p ∈ desist_pairs))
  let w5 : List Finding :=
    if orphan ≠ [] then [Finding.orphanDevol orphan] else []
  { errors := errors1 ++ errors2, warnings := w1 ++ w2 ++ w3 ++ w4 ++ w5 }

/-! ### `SupabaseLoader` (Santa Elisa) -/

/-- Row building of `upsert_units`: net price via the fixed tax-inclusive
divisor. -/
def unit_row (u : ParsedUnit) : UnitRow :=
  let precio := pyOr u.precio_venta 0
  { project_id := PROJECT_NAME,
    unit_number := u.apto,
    price_with_tax := precio,
    price_without_tax := round2 (precio / TAX_DIVISOR),
    down_payment_amount := pyOr u.enganche 0,
    status := normalize_unit_status u.estatus_raw }

def upsert_units (main_units : List ParsedUnit) (units : List UnitRow) : List UnitRow :=
  foldUpsert (fun r => (r.project_id, r.unit_number)) (main_units.map unit_row) units

def unit_ids (main_units : List ParsedUnit) : List String :=
  main_units.map (fun u => u.apto)

def unique_clients (all_units : List ParsedUnit) : List String :=
  unique_clients' (fun u => u.cliente) all_units

def upsert_clients (all_units : List ParsedUnit) (clients : List ClientRow) : List ClientRow :=
  foldUpsert (fun r => r.full_name) ((unique_clients all_units).map ClientRow.mk) clients

def client_ids (all_units : List ParsedUnit) : List String :=
  unique_clients all_units

/-- `_build_sale_row` (Santa Elisa): devolución records are forced to
`cancelled`; the sale date prefers `fecha_reserva`, falls back to the
earliest payment date (noting the derivation), and skips the record when
neither exists. -/
def build_sale_row (uids cids : List String) (u : ParsedUnit) : Option SaleRow :=
  if ¬ u.apto ∈ uids then Option.none
  else
    match u.cliente with
    | Option.none => Option.none
    | some c =>
      if c = "" ∨ ¬ c ∈ cids then Option.none
      else
        let financed := pyOr u.saldo_financiar
          (match u.precio_venta with
           | some p => if p ≠ 0 then round2 (pyOr u.precio_venta 0 - pyOr u.enganche 0) else 0
           | Option.none => 0)
        let sale_status0 := pyOrStr (normalize_sale_status u.estatus_raw) ("active")
        let sale_status :=
          if u.source_section = "devolucion" then "cancelled" else sale_status0
        let notes_parts0 : List String :=
          if u.source_section ≠ "main" then ["Source: " ++ u.source_section] else []
        let dateAndNotes : Option (Date × List String) :=
          match u.fecha_reserva with
          | some dt => some (dt, notes_parts0)
          | Option.none =>
            match min_payment_date u.actual_payments with
            | some dt => some (dt, notes_parts0 ++ ["sale_date derived from earliest payment"])
            | Option.none => Option.none
        match dateAndNotes with
        | Option.none => Option.none
        | some dn =>
          let precio := pyOr u.precio_venta 0
          some { project_id := PROJECT_NAME,
                 unit_id := u.apto,
                 client_id := c,
                 sales_rep_id := pyOrStr (normalize_vendedor u.vendedor) ("Unknown"),
                 sale_date := dn.1,
                 price_with_tax := precio,
                 price_without_tax := if precio ≠ 0 then round2 (precio / TAX_DIVISOR) else 0,
                 down_payment_amount := pyOr u.enganche 0,
                 financed_amount := financed,
                 status := sale_status,
                 referral_applies := false,
                 caso_especial := false,
                 caso_especial_type := Option.none,
                 observaciones := Option.none,
                 notas := pyJoinOrNone (dn.2.map some) }

/-- `sellable` (Santa Elisa): devolución records qualify regardless of
their raw status. -/
def sellable (all_units : List ParsedUnit) : List ParsedUnit :=
  all_units.filter (fun u =>
    (normalize_sale_status u.estatus_raw).isSome || decide (u.source_section = "devolucion"))

def prepared_sales (uids cids : List String) (all_units : List ParsedUnit) :
    List (ParsedUnit × SaleRow) :=
  (sellable all_units).filterMap (fun u =>
    (build_sale_row uids cids u).map (fun r => (u, r)))

def active_rows (uids cids : List String) (all_units : List ParsedUnit) : List SaleRow :=
  ((prepared_sales uids cids all_units).map (fun p => p.2)).filter
    (fun r => decide (r.status = "active"))

def cancelled_rows (uids cids : List String) (all_units : List ParsedUnit) : List SaleRow :=
  ((prepared_sales uids cids all_units).map (fun p => p.2)).filter
    (fun r => decide (¬ r.status = "active"))

def insert_sales (uids cids : List String) (all_units : List ParsedUnit)
    (sales : List SaleRow) : List SaleRow :=
  apply_sales (active_rows uids cids all_units) (cancelled_rows uids cids all_units) sales

/-- The `self._sale_ids` map after `insert_sales` (Santa Elisa). -/
def sale_id_of (uids cids : List String) (u : ParsedUnit) : Option SaleId :=
  if (normalize_sale_status u.estatus_raw).isSome || decide (u.source_section = "devolucion") then
    match build_sale_row uids cids u with
    | some r =>
      some (if r.status = "active" then SaleId.active r.unit_id
            else SaleId.cancelled r.unit_id r.client_id)
    | Option.none => Option.none
  else Option.none

/-- The per-record segment of `insert_payments` (Santa Elisa): sorted, then
devolución payments become negated reimbursements, otherwise first is
`reservation` and the rest `down_payment`. -/
def payment_rows_for (sid : SaleId) (u : ParsedUnit) : List PaymentRow :=
  ((sortPayments u.actual_payments).enum).map (fun ip =>
    if u.source_section = "devolucion" then
      { sale_id := sid,
        payment_date := ip.2.1,
        amount := -|ip.2.2|,
        payment_type := "reimbursement",
        notes := "ETL import from " ++ u.source_section }
    else
      { sale_id := sid,
        payment_date := ip.2.1,
        amount := ip.2.2,
        payment_type := if ip.1 = 0 then "reservation" else "down_payment",
        notes := "ETL import from " ++ u.source_section })

def insert_payment_rows (uids cids : List String) (all_units : List ParsedUnit) :
    List PaymentRow :=
  all_units.flatMap (fun u =>
    if u.actual_payments = [] then []
    else
      match sale_id_of uids cids u with
      | some sid => payment_rows_for sid u
      | Option.none => [])

/-- The parsed Santa Elisa dataset (post-parse, after `main` forces
`estatus_raw = "Desistimiento"` on the desist and devol sections). -/
structure Dataset where
  main : List ParsedUnit
  desist : List ParsedUnit
  devol : List ParsedUnit
  expected : List ParsedExpected
deriving DecidableEq, Repr

def Dataset.all (ds : Dataset) : List ParsedUnit :=
  ds.main ++ ds.desist ++ ds.devol

/-- One `--execute` run of the Santa Elisa loader against a store (no
sales-reps phase in this variant). -/
def load_run (ds : Dataset) (s : Store) : Store :=
  let uids := unit_ids ds.main
  let cids := client_ids ds.all
  { projects := upsertBy (fun p => p.1) (PROJECT_NAME, PROJECT_DISPLAY_NAME) s.projects,
    sales_reps := s.sales_reps,
    units := upsert_units ds.main s.units,
    clients := upsert_clients ds.all s.clients,
    sales := insert_sales uids cids ds.all s.sales,
    payments := s.payments ++ insert_payment_rows uids cids ds.all,
    expected := upsert_expected_payments PROJECT_NAME ds.expected s.expected }

end SE

/-! ## Spec-side models and concrete inputs used by the claim theorems -/

/-- Payment classification as the spec words it (Boulevard, which has no
refund section): payments sorted by date, the first chronological payment
typed `reservation`, all later ones `down_payment`. -/
def Blvd.spec_payment_classification (sid : SaleId) (u : Blvd.ParsedUnit) :
    List PaymentRow :=
  match sortPayments u.actual_payments with
  | [] => []
  | first :: rest =>
    { sale_id := sid, payment_date := first.1, amount := first.2,
      payment_type := "reservation",
      notes := "ETL import from " ++ u.source_section } ::
      rest.map (fun p =>
        { sale_id := sid, payment_date := p.1, amount := p.2,
          payment_type := "down_payment",
          notes := "ETL import from " ++ u.source_section })

/-- Payment classification as the spec words it (Santa Elisa): as above,
except that for a record from the refund (devolución) section every
payment is typed `reimbursement` and its amount is made negative
regardless of the sign stored in the sheet. -/
def SE.spec_payment_classification (sid : SaleId) (u : SE.ParsedUnit) :
    List PaymentRow :=
  if u.source_section = "devolucion" then
    (sortPayments u.actual_payments).map (fun p =>
      { sale_id := sid, payment_date := p.1, amount := -|p.2|,
        payment_type := "reimbursement",
        notes := "ETL import from " ++ u.source_section })
  else
    match sortPayments u.actual_payments with
    | [] => []
    | first :: rest =>
      { sale_id := sid, payment_date := first.1, amount := first.2,
        payment_type := "reservation",
        notes := "ETL import from " ++ u.source_section } ::
        rest.map (fun p =>
          { sale_id := sid, payment_date := p.1, amount := p.2,
            payment_type := "down_payment",
            notes := "ETL import from " ++ u.source_section })

/-- A desistimiento-section record whose unit key appears in no MAIN
record. -/
def desistOnlyUnit : Blvd.ParsedUnit :=
  { apto := "999", cliente := some ("Cliente X"),
    estatus_raw := some ("Desistimiento"),
    actual_payments := [(⟨2024, 1, 31⟩, 100)],
    source_section := "desistimiento" }

/-- A Boulevard dataset whose only record is a desist-section record for a
unit absent from MAIN. -/
def desistOnlyDataset : Blvd.Dataset :=
  { main := [], desist := [desistOnlyUnit], prob := [], expected := [] }

/-- A sellable Boulevard MAIN record with no reservation date but one
observed payment. -/
def noDateUnit : Blvd.ParsedUnit :=
  { apto := "101", cliente := some ("Jane Doe"),
    estatus_raw := some ("4.plan de pagos"),
    actual_payments := [(⟨2024, 2, 15⟩, 100)] }

/-- A sellable Santa Elisa record with no reservation date but one
observed payment. -/
def seFallbackUnit : SE.ParsedUnit :=
  { apto := "7", cliente := some ("C"),
    estatus_raw := some ("4.plan de pagos"),
    actual_payments := [(⟨2024, 2, 29⟩, 50)] }

/-- A sellable Santa Elisa record with neither a reservation date nor any
observed payment. -/
def seNoDateUnit : SE.ParsedUnit :=
  { apto := "7", cliente := some ("C"),
    estatus_raw := some ("4.plan de pagos") }

/-- Header row holding the long header before the short one. -/
def planTypeRow : Nat → Value := fun c =>
  if c = 1 then Value.vstr ("tipo de plan")
  else if c = 2 then Value.vstr ("tipo")
  else Value.vnone

/-- Header row holding the short header before the long one. -/
def planTypeRowRev : Nat → Value := fun c =>
  if c = 1 then Value.vstr ("tipo")
  else if c = 2 then Value.vstr ("tipo de plan")
  else Value.vnone

/-- A Boulevard dataset whose MAIN section repeats one unit key (a fatal
finding). -/
def dupAptoDataset : Blvd.Dataset :=
  { main := [{ apto := "101" }, { apto := "101" }], desist := [], prob := [],
    expected := [] }

/-- A Boulevard dataset producing only an advisory finding (a desist-only
unit key), no fatal ones. -/
def warnOnlyDataset : Blvd.Dataset :=
  { main := [{ apto := "101", cliente := some ("Jane Doe"),
               estatus_raw := some ("4.plan de pagos"),
               actual_payments := [(⟨2024, 1, 31⟩, 10)] }],
    desist := [desistOnlyUnit], prob := [],
    expected := [⟨"101", ⟨2024, 1, 31⟩, 10⟩] }

/-- A budget grid whose header row resolves `apto` at column 1 and one
month column, and whose single data row holds a whitespace-only unit key
next to a non-zero amount. -/
def blankKeyGrid : Grid := fun r c =>
  if r = 1 ∧ c = 1 then Value.vstr ("apto")
  else if r = 1 ∧ c = 2 then Value.vdate ⟨2024, 1, 1⟩
  else if r = 2 ∧ c = 1 then Value.vstr ("   ")
  else if r = 2 ∧ c = 2 then Value.num 5
  else Value.vnone

/-- The same whitespace-key budget grid laid out at the Santa Elisa budget
sheet's coordinates (header row 4, data from row 5). -/
def blankKeyGridSE : Grid := fun r c =>
  if r = 4 ∧ c = 1 then Value.vstr ("apto")
  else if r = 4 ∧ c = 2 then Value.vdate ⟨2024, 1, 1⟩
  else if r = 5 ∧ c = 1 then Value.vstr ("   ")
  else if r = 5 ∧ c = 2 then Value.num 5
  else Value.vnone

/-- A unit-section grid with one well-formed data row: unit key "101" and
one month payment of 5. -/
def sectionGrid : Grid := fun r c =>
  if r = 1 ∧ c = 1 then Value.vstr ("apto")
  else if r = 1 ∧ c = 2 then Value.vdate ⟨2024, 1, 1⟩
  else if r = 2 ∧ c = 1 then Value.vstr ("101")
  else if r = 2 ∧ c = 2 then Value.num 5
  else Value.vnone

/-! ## Generic upsert lemmas -/

section UpsertLemmas

variable {α : Type} {κ : Type} [DecidableEq κ]

theorem hasKey_iff (key : α → κ) (k : κ) (l : List α) :
    hasKey key k l = true ↔ ∃ x ∈ l, key x = k := by
  simp [hasKey, List.any_eq_true]

theorem length_upsertBy_of_present (key : α → κ) {r : α} {l : List α}
    (h : hasKey key (key r) l = true) :
    (upsertBy key r l).length = l.length := by
  simp [upsertBy, h]

theorem hasKey_upsertBy_iff (key : α → κ) (r : α) {l : List α} (k : κ)
    (h : hasKey key (key r) l = true) :
    (hasKey key k (upsertBy key r l) = true ↔ hasKey key k l = true) := by
  unfold upsertBy
  rw [if_pos h]
  rw [hasKey_iff] at h
  simp only [hasKey_iff]
  constructor
  · rintro ⟨x, hx, hkx⟩
    rw [List.mem_map] at hx
    obtain ⟨y, hy, rfl⟩ := hx
    by_cases hyr : key y = key r
    · simp only [hyr, if_pos] at hkx
      obtain ⟨z, hz, hkz⟩ := h
      exact ⟨z, hz, by rw [hkz]; exact hkx⟩
    · simp only [hyr, if_neg, if_false] at hkx
      exact ⟨y, hy, hkx⟩
  · rintro ⟨x, hx, hkx⟩
    by_cases hxr : key x = key r
    · refine ⟨r, List.mem_map.mpr ⟨x, hx, by simp [hxr]⟩, ?_⟩
      rw [← hxr]
      exact hkx
    · exact ⟨x, List.mem_map.mpr ⟨x, hx, by simp [hxr]⟩, hkx⟩

theorem hasKey_upsertBy_mono (key : α → κ) (r : α) {l : List α} {k : κ}
    (h : hasKey key k l = true) :
    hasKey key k (upsertBy key r l) = true := by
  unfold upsertBy
  split
  case isTrue hp =>
    rw [hasKey_iff] at h ⊢
    obtain ⟨x, hx, hkx⟩ := h
    by_cases hxr : key x = key r
    · exact ⟨r, List.mem_map.mpr ⟨x, hx, by simp [hxr]⟩, by rw [← hxr]; exact hkx⟩
    · exact ⟨x, List.mem_map.mpr ⟨x, hx, by simp [hxr]⟩, hkx⟩
  case isFalse hp =>
    rw [hasKey_iff] at h ⊢
    obtain ⟨x, hx, hkx⟩ := h
    exact ⟨x, List.mem_append_left _ hx, hkx⟩

theorem hasKey_upsertBy_self (key : α → κ) (r : α) (l : List α) :
    hasKey key (key r) (upsertBy key r l) = true := by
  unfold upsertBy
  split
  case isTrue hp =>
    rw [hasKey_iff] at hp ⊢
    obtain ⟨x, hx, hkx⟩ := hp
    exact ⟨r, List.mem_map.mpr ⟨x, hx, by simp [hkx]⟩, rfl⟩
  case isFalse hp =>
    rw [hasKey_iff]
    exact ⟨r, List.mem_append_right _ (List.mem_singleton_self r), rfl⟩

theorem hasKey_foldUpsert_mono (key : α → κ) (rs : List α) {l : List α} {k : κ}
    (h : hasKey key k l = true) :
    hasKey key k (foldUpsert key rs l) = true := by
  induction rs generalizing l with
  | nil => exact h
  | cons r rs ih =>
    simp only [foldUpsert, List.foldl_cons]
    exact ih (hasKey_upsertBy_mono key r h)

theorem hasKey_foldUpsert_of_mem (key : α → κ) {rs l : List α} {r : α} (h : r ∈ rs) :
    hasKey key (key r) (foldUpsert key rs l) = true := by
  induction rs generalizing l with
  | nil => cases h
  | cons a rs ih =>
    simp only [foldUpsert, List.foldl_cons]
    rcases List.mem_cons.mp h with rfl | hm
    · exact hasKey_foldUpsert_mono key rs (hasKey_upsertBy_self key r l)
    · exact ih hm

theorem foldUpsert_stable_length (key : α → κ) {rs l : List α}
    (h : ∀ r ∈ rs, hasKey key (key r) l = true) :
    (foldUpsert key rs l).length = l.length := by
  induction rs generalizing l with
  | nil => rfl
  | cons r rs ih =>
    simp only [foldUpsert, List.foldl_cons]
    have hr := h r (List.mem_cons_self r rs)
    have h2 : ∀ r' ∈ rs, hasKey key (key r') (upsertBy key r l) = true := fun r' hm =>
      hasKey_upsertBy_mono key r (h r' (List.mem_cons_of_mem r hm))
    calc (foldUpsert key rs (upsertBy key r l)).length
        = (upsertBy key r l).length := ih h2
      _ = l.length := length_upsertBy_of_present key hr

theorem foldUpsert_twice_length (key : α → κ) (rs l : List α) :
    (foldUpsert key rs (foldUpsert key rs l)).length = (foldUpsert key rs l).length :=
  foldUpsert_stable_length key (fun _ hm => hasKey_foldUpsert_of_mem key hm)

end UpsertLemmas

/-! ## Sales-phase lemmas -/

section SalesLemmas

theorem countP_congr' {α : Type} {l : List α} {p q : α → Bool}
    (h : ∀ x ∈ l, p x = q x) : l.countP p = l.countP q := by
  induction l with
  | nil => rfl
  | cons a l ih =>
    rw [List.countP_cons, List.countP_cons, h a (List.mem_cons_self a l),
      ih (fun x hx => h x (List.mem_cons_of_mem a hx))]

theorem hasActiveKey_iff (uid : String) (l : List SaleRow) :
    hasActiveKey uid l = true ↔ ∃ x ∈ l, x.status = "active" ∧ x.unit_id = uid := by
  simp [hasActiveKey, List.any_eq_true]

theorem hasCancelledKey_iff (uid cid : String) (l : List SaleRow) :
    hasCancelledKey uid cid l = true ↔
      ∃ x ∈ l, x.unit_id = uid ∧ x.client_id = cid ∧ x.status = "cancelled" := by
  simp [hasCancelledKey, List.any_eq_true]

theorem countActive_upsertActiveSale {r : SaleRow} (hr : r.status = "active")
    (l : List SaleRow) :
    countActive (upsertActiveSale r l) =
      if hasActiveKey r.unit_id l then countActive l else countActive l + 1 := by
  by_cases h : hasActiveKey r.unit_id l = true
  · rw [upsertActiveSale, if_pos h, if_pos h]
    unfold countActive
    rw [List.countP_map]
    apply countP_congr'
    intro x hx
    by_cases hc : x.status = "active" ∧ x.unit_id = r.unit_id
    · simp [hc, hr, hc.1]
    · simp [hc]
  · rw [upsertActiveSale, if_neg h, if_neg h]
    unfold countActive
    rw [List.countP_append]
    simp [hr]

theorem countCancelled_upsertActiveSale {r : SaleRow} (hr : r.status = "active")
    (l : List SaleRow) :
    countCancelled (upsertActiveSale r l) = countCancelled l := by
  by_cases h : hasActiveKey r.unit_id l = true
  · rw [upsertActiveSale, if_pos h]
    unfold countCancelled
    rw [List.countP_map]
    apply countP_congr'
    intro x hx
    by_cases hc : x.status = "active" ∧ x.unit_id = r.unit_id
    · simp [hc, hr, hc.1]
    · simp [hc]
  · rw [upsertActiveSale, if_neg h]
    unfold countCancelled
    rw [List.countP_append]
    simp [hr]

theorem hasActiveKey_upsertActiveSale {r : SaleRow} (hr : r.status = "active")
    (l : List SaleRow) (u : String) :
    (hasActiveKey u (upsertActiveSale r l) = true ↔
      (hasActiveKey u l = true ∨ u = r.unit_id)) := by
  by_cases h : hasActiveKey r.unit_id l = true
  · rw [upsertActiveSale, if_pos h]
    rw [hasActiveKey_iff] at h
    simp only [hasActiveKey_iff]
    constructor
    · rintro ⟨x, hx, hxa, hxu⟩
      rw [List.mem_map] at hx
      obtain ⟨y, hy, rfl⟩ := hx
      by_cases hc : y.status = "active" ∧ y.unit_id = r.unit_id
      · simp only [hc, if_pos] at hxa hxu
        exact Or.inr hxu.symm
      · simp only [hc, if_neg, if_false] at hxa hxu
        exact Or.inl ⟨y, hy, hxa, hxu⟩
    · rintro (⟨x, hx, hxa, hxu⟩ | rfl)
      · by_cases hc : x.status = "active" ∧ x.unit_id = r.unit_id
        · refine ⟨r, List.mem_map.mpr ⟨x, hx, by simp [hc]⟩, hr, ?_⟩
          rw [← hc.2]
          exact hxu
        · exact ⟨x, List.mem_map.mpr ⟨x, hx, by simp [hc]⟩, hxa, hxu⟩
      · obtain ⟨z, hz, hza, hzu⟩ := h
        exact ⟨r, List.mem_map.mpr ⟨z, hz, by simp [hza, hzu]⟩, hr, rfl⟩
  · rw [upsertActiveSale, if_neg h]
    simp only [hasActiveKey_iff, List.mem_append, List.mem_singleton]
    constructor
    · rintro ⟨x, hx | rfl, hxa, hxu⟩
      · exact Or.inl ⟨x, hx, hxa, hxu⟩
      · exact Or.inr hxu.symm
    · rintro (⟨x, hx, hxa, hxu⟩ | rfl)
      · exact ⟨x, Or.inl hx, hxa, hxu⟩
      · exact ⟨r, Or.inr rfl, hr, rfl⟩

theorem hasCancelledKey_upsertActiveSale {r : SaleRow} (hr : r.status = "active")
    (l : List SaleRow) (u c : String) :
    (hasCancelledKey u c (upsertActiveSale r l) = true ↔
      hasCancelledKey u c l = true) := by
  by_cases h : hasActiveKey r.unit_id l = true
  · rw [upsertActiveSale, if_pos h]
    simp only [hasCancelledKey_iff]
    constructor
    · rintro ⟨x, hx, hxu, hxc, hxs⟩
      rw [List.mem_map] at hx
      obtain ⟨y, hy, rfl⟩ := hx
      by_cases hc : y.status = "active" ∧ y.unit_id = r.unit_id
      · rw [if_pos hc] at hxs
        rw [hr] at hxs
        exact absurd hxs (by decide)
      · rw [if_neg hc] at hxu hxc hxs
        exact ⟨y, hy, hxu, hxc, hxs⟩
    · rintro ⟨x, hx, hxu, hxc, hxs⟩
      have hc : ¬ (x.status = "active" ∧ x.unit_id = r.unit_id) := by
        rintro ⟨ha, _⟩
        rw [ha] at hxs
        exact absurd hxs (by decide)
      exact ⟨x, List.mem_map.mpr ⟨x, hx, by simp [hc]⟩, hxu, hxc, hxs⟩
  · rw [upsertActiveSale, if_neg h]
    simp only [hasCancelledKey_iff, List.mem_append, List.mem_singleton]
    constructor
    · rintro ⟨x, hx | rfl, hxu, hxc, hxs⟩
      · exact ⟨x, hx, hxu, hxc, hxs⟩
      · rw [hr] at hxs
        exact absurd hxs (by decide)
    · rintro ⟨x, hx, hxu, hxc, hxs⟩
      exact ⟨x, Or.inl hx, hxu, hxc, hxs⟩

theorem countCancelled_insertCancelledSale {r : SaleRow} (hr : r.status = "cancelled")
    (l : List SaleRow) :
    countCancelled (insertCancelledSale r l) =
      if hasCancelledKey r.unit_id r.client_id l then countCancelled l
      else countCancelled l + 1 := by
  by_cases h : hasCancelledKey r.unit_id r.client_id l = true
  · rw [insertCancelledSale, if_pos h, if_pos h]
  · rw [insertCancelledSale, if_neg h, if_neg h]
    unfold countCancelled
    rw [List.countP_append]
    simp [hr]

theorem countActive_insertCancelledSale {r : SaleRow} (hr : r.status = "cancelled")
    (l : List SaleRow) :
    countActive (insertCancelledSale r l) = countActive l := by
  by_cases h : hasCancelledKey r.unit_id r.client_id l = true
  · rw [insertCancelledSale, if_pos h]
  · rw [insertCancelledSale, if_neg h]
    unfold countActive
    rw [List.countP_append]
    simp [hr]

theorem hasCancelledKey_insertCancelledSale {r : SaleRow} (hr : r.status = "cancelled")
    (l : List SaleRow) (u c : String) :
    (hasCancelledKey u c (insertCancelledSale r l) = true ↔
      (hasCancelledKey u c l = true ∨ (u = r.unit_id ∧ c = r.client_id))) := by
  by_cases h : hasCancelledKey r.unit_id r.client_id l = true
  · rw [insertCancelledSale, if_pos h]
    constructor
    · exact fun hl => Or.inl hl
    · rintro (hl | ⟨rfl, rfl⟩)
      · exact hl
      · exact h
  · rw [insertCancelledSale, if_neg h]
    simp only [hasCancelledKey_iff, List.mem_append, List.mem_singleton]
    constructor
    · rintro ⟨x, hx | rfl, hxu, hxc, hxs⟩
      · exact Or.inl ⟨x, hx, hxu, hxc, hxs⟩
      · exact Or.inr ⟨hxu.symm, hxc.symm⟩
    · rintro (⟨x, hx, hxu, hxc, hxs⟩ | ⟨rfl, rfl⟩)
      · exact ⟨x, Or.inl hx, hxu, hxc, hxs⟩
      · exact ⟨r, Or.inr rfl, rfl, rfl, hr⟩

theorem hasActiveKey_insertCancelledSale {r : SaleRow} (hr : r.status = "cancelled")
    (l : List SaleRow) (u : String) :
    (hasActiveKey u (insertCancelledSale r l) = true ↔ hasActiveKey u l = true) := by
  by_cases h : hasCancelledKey r.unit_id r.client_id l = true
  · rw [insertCancelledSale, if_pos h]
  · rw [insertCancelledSale, if_neg h]
    simp only [hasActiveKey_iff, List.mem_append, List.mem_singleton]
    constructor
    · rintro ⟨x, hx | rfl, hxa, hxu⟩
      · exact ⟨x, hx, hxa, hxu⟩
      · rw [hr] at hxa
        exact absurd hxa (by decide)
    · rintro ⟨x, hx, hxa, hxu⟩
      exact ⟨x, Or.inl hx, hxa, hxu⟩

end SalesLemmas

/-! ## Sales fold lemmas -/

section SalesFoldLemmas

theorem foldActive_hasActive_iff {ar : List SaleRow}
    (ha : ∀ r ∈ ar, r.status = "active") (l : List SaleRow) (u : String) :
    (hasActiveKey u (ar.foldl (fun acc r => upsertActiveSale r acc) l) = true ↔
      (hasActiveKey u l = true ∨ ∃ r ∈ ar, u = r.unit_id)) := by
  induction ar generalizing l with
  | nil => simp
  | cons r ar ih =>
    simp only [List.foldl_cons]
    rw [ih (fun r' hm => ha r' (List.mem_cons_of_mem r hm)),
      hasActiveKey_upsertActiveSale (ha r (List.mem_cons_self r ar))]
    constructor
    · rintro ((hl | rfl) | ⟨r', hm, rfl⟩)
      · exact Or.inl hl
      · exact Or.inr ⟨r, List.mem_cons_self r ar, rfl⟩
      · exact Or.inr ⟨r', List.mem_cons_of_mem r hm, rfl⟩
    · rintro (hl | ⟨r', hm, rfl⟩)
      · exact Or.inl (Or.inl hl)
      · rcases List.mem_cons.mp hm with rfl | hm'
        · exact Or.inl (Or.inr rfl)
        · exact Or.inr ⟨r', hm', rfl⟩

theorem foldActive_hasCancelled_iff {ar : List SaleRow}
    (ha : ∀ r ∈ ar, r.status = "active") (l : List SaleRow) (u c : String) :
    (hasCancelledKey u c (ar.foldl (fun acc r => upsertActiveSale r acc) l) = true ↔
      hasCancelledKey u c l = true) := by
  induction ar generalizing l with
  | nil => exact Iff.rfl
  | cons r ar ih =>
    simp only [List.foldl_cons]
    rw [ih (fun r' hm => ha r' (List.mem_cons_of_mem r hm)),
      hasCancelledKey_upsertActiveSale (ha r (List.mem_cons_self r ar))]

theorem foldActive_counts {ar : List SaleRow}
    (ha : ∀ r ∈ ar, r.status = "active") {l : List SaleRow}
    (hp : ∀ r ∈ ar, hasActiveKey r.unit_id l = true) :
    countActive (ar.foldl (fun acc r => upsertActiveSale r acc) l) = countActive l ∧
    countCancelled (ar.foldl (fun acc r => upsertActiveSale r acc) l) = countCancelled l := by
  induction ar generalizing l with
  | nil => exact ⟨rfl, rfl⟩
  | cons r ar ih =>
    simp only [List.foldl_cons]
    have hr := ha r (List.mem_cons_self r ar)
    have hpr := hp r (List.mem_cons_self r ar)
    have hstep1 : countActive (upsertActiveSale r l) = countActive l := by
      rw [countActive_upsertActiveSale hr, if_pos hpr]
    have hstep2 := countCancelled_upsertActiveSale hr l
    have hp' : ∀ r' ∈ ar, hasActiveKey r'.unit_id (upsertActiveSale r l) = true := by
      intro r' hm
      rw [hasActiveKey_upsertActiveSale hr]
      exact Or.inl (hp r' (List.mem_cons_of_mem r hm))
    obtain ⟨c1, c2⟩ := ih (fun r' hm => ha r' (List.mem_cons_of_mem r hm)) hp'
    exact ⟨c1.trans hstep1, c2.trans hstep2⟩

theorem foldCancelled_hasCancelled_iff {cr : List SaleRow}
    (hc : ∀ r ∈ cr, r.status = "cancelled") (l : List SaleRow) (u c : String) :
    (hasCancelledKey u c (cr.foldl (fun acc r => insertCancelledSale r acc) l) = true ↔
      (hasCancelledKey u c l = true ∨ ∃ r ∈ cr, u = r.unit_id ∧ c = r.client_id)) := by
  induction cr generalizing l with
  | nil => simp
  | cons r cr ih =>
    simp only [List.foldl_cons]
    rw [ih (fun r' hm => hc r' (List.mem_cons_of_mem r hm)),
      hasCancelledKey_insertCancelledSale (hc r (List.mem_cons_self r cr))]
    constructor
    · rintro ((hl | hne) | ⟨r', hm, he⟩)
      · exact Or.inl hl
      · exact Or.inr ⟨r, List.mem_cons_self r cr, hne⟩
      · exact Or.inr ⟨r', List.mem_cons_of_mem r hm, he⟩
    · rintro (hl | ⟨r', hm, he⟩)
      · exact Or.inl (Or.inl hl)
      · rcases List.mem_cons.mp hm with rfl | hm'
        · exact Or.inl (Or.inr he)
        · exact Or.inr ⟨r', hm', he⟩

theorem foldCancelled_hasActive_iff {cr : List SaleRow}
    (hc : ∀ r ∈ cr, r.status = "cancelled") (l : List SaleRow) (u : String) :
    (hasActiveKey u (cr.foldl (fun acc r => insertCancelledSale r acc) l) = true ↔
      hasActiveKey u l = true) := by
  induction cr generalizing l with
  | nil => exact Iff.rfl
  | cons r cr ih =>
    simp only [List.foldl_cons]
    rw [ih (fun r' hm => hc r' (List.mem_cons_of_mem r hm)),
      hasActiveKey_insertCancelledSale (hc r (List.mem_cons_self r cr))]

theorem foldCancelled_counts {cr : List SaleRow}
    (hc : ∀ r ∈ cr, r.status = "cancelled") {l : List SaleRow}
    (hp : ∀ r ∈ cr, hasCancelledKey r.unit_id r.client_id l = true) :
    countActive (cr.foldl (fun acc r => insertCancelledSale r acc) l) = countActive l ∧
    countCancelled (cr.foldl (fun acc r => insertCancelledSale r acc) l) = countCancelled l := by
  induction cr generalizing l with
  | nil => exact ⟨rfl, rfl⟩
  | cons r cr ih =>
    simp only [List.foldl_cons]
    have hr := hc r (List.mem_cons_self r cr)
    have hpr := hp r (List.mem_cons_self r cr)
    have hstep1 := countActive_insertCancelledSale hr l
    have hstep2 : countCancelled (insertCancelledSale r l) = countCancelled l := by
      rw [countCancelled_insertCancelledSale hr, if_pos hpr]
    have hp' : ∀ r' ∈ cr, hasCancelledKey r'.unit_id r'.client_id (insertCancelledSale r l) = true := by
      intro r' hm
      rw [hasCancelledKey_insertCancelledSale hr]
      exact Or.inl (hp r' (List.mem_cons_of_mem r hm))
    obtain ⟨c1, c2⟩ := ih (fun r' hm => hc r' (List.mem_cons_of_mem r hm)) hp'
    exact ⟨c1.trans hstep1, c2.trans hstep2⟩

/-- One full sales phase on a store already holding every active key and
every cancelled `(unit, client)` key leaves both status buckets'
row counts unchanged. -/
theorem apply_sales_counts_stable {ar cr : List SaleRow}
    (ha : ∀ r ∈ ar, r.status = "active") (hc : ∀ r ∈ cr, r.status = "cancelled")
    {l : List SaleRow}
    (hpa : ∀ r ∈ ar, hasActiveKey r.unit_id l = true)
    (hpc : ∀ r ∈ cr, hasCancelledKey r.unit_id r.client_id l = true) :
    countActive (apply_sales ar cr l) = countActive l ∧
    countCancelled (apply_sales ar cr l) = countCancelled l := by
  unfold apply_sales
  obtain ⟨a1, a2⟩ := foldActive_counts ha hpa
  have hpc' : ∀ r ∈ cr, hasCancelledKey r.unit_id r.client_id
      (ar.foldl (fun acc r => upsertActiveSale r acc) l) = true := by
    intro r hm
    rw [foldActive_hasCancelled_iff ha]
    exact hpc r hm
  obtain ⟨b1, b2⟩ := foldCancelled_counts hc hpc'
  exact ⟨b1.trans a1, b2.trans a2⟩

/-- After one full sales phase every processed active key and cancelled
`(unit, client)` key is present in the store. -/
theorem apply_sales_presence {ar cr : List SaleRow}
    (ha : ∀ r ∈ ar, r.status = "active") (hc : ∀ r ∈ cr, r.status = "cancelled")
    (l : List SaleRow) :
    (∀ r ∈ ar, hasActiveKey r.unit_id (apply_sales ar cr l) = true) ∧
    (∀ r ∈ cr, hasCancelledKey r.unit_id r.client_id (apply_sales ar cr l) = true) := by
  unfold apply_sales
  constructor
  · intro r hm
    rw [foldCancelled_hasActive_iff hc, foldActive_hasActive_iff ha]
    exact Or.inr ⟨r, hm, rfl⟩
  · intro r hm
    rw [foldCancelled_hasCancelled_iff hc]
    exact Or.inr ⟨r, hm, rfl, rfl⟩

end SalesFoldLemmas

/-! ## Built sale rows land in exactly one of the two status buckets -/

theorem assocFind?_mem {α β : Type} [DecidableEq α] {k : α} {l : List (α × β)} {v : β}
    (h : assocFind? k l = some v) : ∃ p ∈ l, p.2 = v := by
  unfold assocFind? at h
  cases hf : l.find? (fun p => decide (p.1 = k)) with
  | none => rw [hf] at h; cases h
  | some p =>
    rw [hf] at h
    simp only [Option.map_some', Option.some.injEq] at h
    exact ⟨p, List.mem_of_find?_eq_some hf, h⟩

theorem Blvd.normalize_sale_status_cases_blvd (o : Option String) :
    Blvd.normalize_sale_status o = Option.none ∨
      Blvd.normalize_sale_status o = some ("active") ∨
      Blvd.normalize_sale_status o = some ("cancelled") := by
  cases o with
  | none => exact Or.inl rfl
  | some r =>
    have hdef : Blvd.normalize_sale_status (some r) =
        assocFind? (pyLower (pyStrip r)) Blvd.STATUS_TO_SALE_STATUS := rfl
    rw [hdef]
    cases hf : assocFind? (pyLower (pyStrip r)) Blvd.STATUS_TO_SALE_STATUS with
    | none => exact Or.inl rfl
    | some v =>
      obtain ⟨p, hp, hv⟩ := assocFind?_mem hf
      have hall : ∀ p ∈ Blvd.STATUS_TO_SALE_STATUS, p.2 = "active" ∨ p.2 = "cancelled" := by
        decide
      rcases hall p hp with h | h
      · exact Or.inr (Or.inl (by rw [hv.symm.trans h]))
      · exact Or.inr (Or.inr (by rw [hv.symm.trans h]))

theorem SE.normalize_sale_status_cases_se (o : Option String) :
    SE.normalize_sale_status o = Option.none ∨
      SE.normalize_sale_status o = some ("active") ∨
      SE.normalize_sale_status o = some ("cancelled") := by
  cases o with
  | none => exact Or.inl rfl
  | some r =>
    have hdef : SE.normalize_sale_status (some r) =
        assocFind? (pyLower (pyStrip r)) SE.STATUS_TO_SALE_STATUS := rfl
    rw [hdef]
    cases hf : assocFind? (pyLower (pyStrip r)) SE.STATUS_TO_SALE_STATUS with
    | none => exact Or.inl rfl
    | some v =>
      obtain ⟨p, hp, hv⟩ := assocFind?_mem hf
      have hall : ∀ p ∈ SE.STATUS_TO_SALE_STATUS, p.2 = "active" ∨ p.2 = "cancelled" := by
        decide
      rcases hall p hp with h | h
      · exact Or.inr (Or.inl (by rw [hv.symm.trans h]))
      · exact Or.inr (Or.inr (by rw [hv.symm.trans h]))

theorem Blvd.build_sale_row_status_blvd {uids cids : List String} {u : Blvd.ParsedUnit}
    {r : SaleRow} (h : Blvd.build_sale_row uids cids u = some r) :
    r.status = "active" ∨ r.status = "cancelled" := by
  unfold Blvd.build_sale_row at h
  split at h
  · cases h
  · split at h
    · cases h
    · split at h
      · cases h
      · rw [Option.some.injEq] at h
        subst h
        rcases Blvd.normalize_sale_status_cases_blvd u.estatus_raw with hs | hs | hs <;>
          simp [hs, pyOrStr]

theorem SE.build_sale_row_status_se {uids cids : List String} {u : SE.ParsedUnit}
    {r : SaleRow} (h : SE.build_sale_row uids cids u = some r) :
    r.status = "active" ∨ r.status = "cancelled" := by
  unfold SE.build_sale_row at h
  split at h
  · cases h
  · split at h
    · cases h
    · split at h
      · cases h
      · cases hfr : u.fecha_reserva with
        | some dt =>
          simp only [hfr, Option.some.injEq] at h
          subst h
          by_cases hd : u.source_section = "devolucion"
          · simp [hd]
          · rcases SE.normalize_sale_status_cases_se u.estatus_raw with hs | hs | hs <;>
              simp [hd, hs, pyOrStr]
        | none =>
          simp only [hfr] at h
          cases hmp : min_payment_date u.actual_payments with
          | some dt =>
            simp only [hmp, Option.some.injEq] at h
            subst h
            by_cases hd : u.source_section = "devolucion"
            · simp [hd]
            · rcases SE.normalize_sale_status_cases_se u.estatus_raw with hs | hs | hs <;>
                simp [hd, hs, pyOrStr]
          | none =>
            simp only [hmp] at h
            cases h

theorem Blvd.active_rows_status_blvd {uids cids : List String} {all_units : List Blvd.ParsedUnit} :
    ∀ r ∈ Blvd.active_rows uids cids all_units, r.status = "active" := by
  intro r hr
  rw [Blvd.active_rows, List.mem_filter] at hr
  exact of_decide_eq_true hr.2

theorem Blvd.cancelled_rows_status_blvd {uids cids : List String} {all_units : List Blvd.ParsedUnit} :
    ∀ r ∈ Blvd.cancelled_rows uids cids all_units, r.status = "cancelled" := by
  intro r hr
  rw [Blvd.cancelled_rows, List.mem_filter] at hr
  obtain ⟨hmem, hne⟩ := hr
  have hne' : ¬ r.status = "active" := of_decide_eq_true hne
  obtain ⟨p, hp, rfl⟩ := List.mem_map.mp hmem
  rw [Blvd.prepared_sales, List.mem_filterMap] at hp
  obtain ⟨u, _, heq⟩ := hp
  cases hb : Blvd.build_sale_row uids cids u with
  | none => rw [hb] at heq; cases heq
  | some row =>
    rw [hb] at heq
    simp only [Option.map_some', Option.some.injEq] at heq
    rw [← heq]
    rw [← heq] at hne'
    rcases Blvd.build_sale_row_status_blvd hb with hs | hs
    · exact absurd hs hne'
    · exact hs

theorem SE.active_rows_status_se {uids cids : List String} {all_units : List SE.ParsedUnit} :
    ∀ r ∈ SE.active_rows uids cids all_units, r.status = "active" := by
  intro r hr
  rw [SE.active_rows, List.mem_filter] at hr
  exact of_decide_eq_true hr.2

theorem SE.cancelled_rows_status_se {uids cids : List String} {all_units : List SE.ParsedUnit} :
    ∀ r ∈ SE.cancelled_rows uids cids all_units, r.status = "cancelled" := by
  intro r hr
  rw [SE.cancelled_rows, List.mem_filter] at hr
  obtain ⟨hmem, hne⟩ := hr
  have hne' : ¬ r.status = "active" := of_decide_eq_true hne
  obtain ⟨p, hp, rfl⟩ := List.mem_map.mp hmem
  rw [SE.prepared_sales, List.mem_filterMap] at hp
  obtain ⟨u, _, heq⟩ := hp
  cases hb : SE.build_sale_row uids cids u with
  | none => rw [hb] at heq; cases heq
  | some row =>
    rw [hb] at heq
    simp only [Option.map_some', Option.some.injEq] at heq
    rw [← heq]
    rw [← heq] at hne'
    rcases SE.build_sale_row_status_se hb with hs | hs
    · exact absurd hs hne'
    · exact hs

/-- Row counts of both sale buckets are unchanged when `insert_sales` runs
a second time against a store already holding its first run's output. -/
theorem Blvd.insert_sales_twice_counts_blvd (uids cids : List String)
    (all_units : List Blvd.ParsedUnit) (l : List SaleRow) :
    countActive (Blvd.insert_sales uids cids all_units
        (Blvd.insert_sales uids cids all_units l)) =
      countActive (Blvd.insert_sales uids cids all_units l) ∧
    countCancelled (Blvd.insert_sales uids cids all_units
        (Blvd.insert_sales uids cids all_units l)) =
      countCancelled (Blvd.insert_sales uids cids all_units l) := by
  unfold Blvd.insert_sales
  obtain ⟨hpa, hpc⟩ := apply_sales_presence Blvd.active_rows_status_blvd Blvd.cancelled_rows_status_blvd l
  exact apply_sales_counts_stable Blvd.active_rows_status_blvd Blvd.cancelled_rows_status_blvd hpa hpc

theorem SE.insert_sales_twice_counts_se (uids cids : List String)
    (all_units : List SE.ParsedUnit) (l : List SaleRow) :
    countActive (SE.insert_sales uids cids all_units
        (SE.insert_sales uids cids all_units l)) =
      countActive (SE.insert_sales uids cids all_units l) ∧
    countCancelled (SE.insert_sales uids cids all_units
        (SE.insert_sales uids cids all_units l)) =
      countCancelled (SE.insert_sales uids cids all_units l) := by
  unfold SE.insert_sales
  obtain ⟨hpa, hpc⟩ := apply_sales_presence SE.active_rows_status_se SE.cancelled_rows_status_se l
  exact apply_sales_counts_stable SE.active_rows_status_se SE.cancelled_rows_status_se hpa hpc

theorem Blvd.load_run_units_blvd (ds : Blvd.Dataset) (s : Store) :
    (Blvd.load_run ds s).units = Blvd.upsert_units ds.main s.units := rfl

theorem Blvd.load_run_clients_blvd (ds : Blvd.Dataset) (s : Store) :
    (Blvd.load_run ds s).clients = Blvd.upsert_clients ds.all s.clients := rfl

theorem Blvd.load_run_sales_blvd (ds : Blvd.Dataset) (s : Store) :
    (Blvd.load_run ds s).sales =
      Blvd.insert_sales (Blvd.unit_ids ds.main) (Blvd.client_ids ds.all) ds.all s.sales := rfl

theorem Blvd.load_run_payments_blvd (ds : Blvd.Dataset) (s : Store) :
    (Blvd.load_run ds s).payments =
      s.payments ++
        Blvd.insert_payment_rows (Blvd.unit_ids ds.main) (Blvd.client_ids ds.all) ds.all := rfl

theorem Blvd.load_run_expected_blvd (ds : Blvd.Dataset) (s : Store) :
    (Blvd.load_run ds s).expected =
      upsert_expected_payments Blvd.PROJECT_NAME ds.expected s.expected := rfl

theorem SE.load_run_units_se (ds : SE.Dataset) (s : Store) :
    (SE.load_run ds s).units = SE.upsert_units ds.main s.units := rfl

theorem SE.load_run_clients_se (ds : SE.Dataset) (s : Store) :
    (SE.load_run ds s).clients = SE.upsert_clients ds.all s.clients := rfl

theorem SE.load_run_sales_se (ds : SE.Dataset) (s : Store) :
    (SE.load_run ds s).sales =
      SE.insert_sales (SE.unit_ids ds.main) (SE.client_ids ds.all) ds.all s.sales := rfl

theorem SE.load_run_payments_se (ds : SE.Dataset) (s : Store) :
    (SE.load_run ds s).payments =
      s.payments ++
        SE.insert_payment_rows (SE.unit_ids ds.main) (SE.client_ids ds.all) ds.all := rfl

theorem SE.load_run_expected_se (ds : SE.Dataset) (s : Store) :
    (SE.load_run ds s).expected =
      upsert_expected_payments SE.PROJECT_NAME ds.expected s.expected := rfl

/-- C1.  Idempotence of the load: for either ETL, running the load of the
same parsed dataset twice — once against an empty store, then again
against the store holding the first run's output — yields identical final
row counts in units, clients, active sales and cancelled sales: the second
run's unit/client upserts, active-sale upserts (conflict key `unit_id`)
and cancelled-sale read-before-write checks (keyed by unit, client and
status `cancelled`) insert no new rows in those four buckets. -/
theorem C1_load_idempotent (dsB : Blvd.Dataset) (dsS : SE.Dataset) :
    ((Blvd.load_run dsB (Blvd.load_run dsB Store.empty)).units.length =
        (Blvd.load_run dsB Store.empty).units.length ∧
      (Blvd.load_run dsB (Blvd.load_run dsB Store.empty)).clients.length =
        (Blvd.load_run dsB Store.empty).clients.length ∧
      countActive (Blvd.load_run dsB (Blvd.load_run dsB Store.empty)).sales =
        countActive (Blvd.load_run dsB Store.empty).sales ∧
      countCancelled (Blvd.load_run dsB (Blvd.load_run dsB Store.empty)).sales =
        countCancelled (Blvd.load_run dsB Store.empty).sales) ∧
    ((SE.load_run dsS (SE.load_run dsS Store.empty)).units.length =
        (SE.load_run dsS Store.empty).units.length ∧
      (SE.load_run dsS (SE.load_run dsS Store.empty)).clients.length =
        (SE.load_run dsS Store.empty).clients.length ∧
      countActive (SE.load_run dsS (SE.load_run dsS Store.empty)).sales =
        countActive (SE.load_run dsS Store.empty).sales ∧
      countCancelled (SE.load_run dsS (SE.load_run dsS Store.empty)).sales =
        countCancelled (SE.load_run dsS Store.empty).sales) := by
  refine ⟨⟨?_, ?_, ?_, ?_⟩, ?_, ?_, ?_, ?_⟩
  · rw [Blvd.load_run_units_blvd, Blvd.load_run_units_blvd]
    unfold Blvd.upsert_units
    exact foldUpsert_twice_length _ _ _
  · rw [Blvd.load_run_clients_blvd, Blvd.load_run_clients_blvd]
    unfold Blvd.upsert_clients
    exact foldUpsert_twice_length _ _ _
  · rw [Blvd.load_run_sales_blvd, Blvd.load_run_sales_blvd]
    exact (Blvd.insert_sales_twice_counts_blvd _ _ _ _).1
  · rw [Blvd.load_run_sales_blvd, Blvd.load_run_sales_blvd]
    exact (Blvd.insert_sales_twice_counts_blvd _ _ _ _).2
  · rw [SE.load_run_units_se, SE.load_run_units_se]
    unfold SE.upsert_units
    exact foldUpsert_twice_length _ _ _
  · rw [SE.load_run_clients_se, SE.load_run_clients_se]
    unfold SE.upsert_clients
    exact foldUpsert_twice_length _ _ _
  · rw [SE.load_run_sales_se, SE.load_run_sales_se]
    exact (SE.insert_sales_twice_counts_se _ _ _ _).1
  · rw [SE.load_run_sales_se, SE.load_run_sales_se]
    exact (SE.insert_sales_twice_counts_se _ _ _ _).2

theorem Blvd.payment_rows_for_length_blvd (sid : SaleId) (u : Blvd.ParsedUnit) :
    (Blvd.payment_rows_for sid u).length = u.actual_payments.length := by
  unfold Blvd.payment_rows_for
  rw [List.length_map, List.enum_length]
  exact List.length_insertionSort _ _

theorem SE.payment_rows_for_length_se (sid : SaleId) (u : SE.ParsedUnit) :
    (SE.payment_rows_for sid u).length = u.actual_payments.length := by
  unfold SE.payment_rows_for
  rw [List.length_map, List.enum_length]
  exact List.length_insertionSort _ _

theorem Blvd.insert_payment_rows_length_blvd (uids cids : List String)
    (units : List Blvd.ParsedUnit) :
    (Blvd.insert_payment_rows uids cids units).length =
      (units.map (fun u =>
        if u.actual_payments ≠ [] ∧ (Blvd.sale_id_of uids cids u).isSome
        then u.actual_payments.length else 0)).sum := by
  unfold Blvd.insert_payment_rows
  rw [List.length_flatMap]
  apply congrArg List.sum
  apply List.map_congr_left
  intro u _
  simp only [Function.comp_apply]
  by_cases hp : u.actual_payments = []
  · simp [hp]
  · rw [if_neg hp]
    cases hs : Blvd.sale_id_of uids cids u with
    | none => simp [hp, hs]
    | some sid => simp [hp, hs, Blvd.payment_rows_for_length_blvd]

theorem SE.insert_payment_rows_length_se (uids cids : List String)
    (units : List SE.ParsedUnit) :
    (SE.insert_payment_rows uids cids units).length =
      (units.map (fun u =>
        if u.actual_payments ≠ [] ∧ (SE.sale_id_of uids cids u).isSome
        then u.actual_payments.length else 0)).sum := by
  unfold SE.insert_payment_rows
  rw [List.length_flatMap]
  apply congrArg List.sum
  apply List.map_congr_left
  intro u _
  simp only [Function.comp_apply]
  by_cases hp : u.actual_payments = []
  · simp [hp]
  · rw [if_neg hp]
    cases hs : SE.sale_id_of uids cids u with
    | none => simp [hp, hs]
    | some sid => simp [hp, hs, SE.payment_rows_for_length_se]

/-- C9.  Payments are not idempotent: for either ETL, the payments phase
appends its rows to whatever the store already holds (a plain insert with
no conflict key), each record with a non-empty payment list and a resolved
sale identifier contributes exactly one row per observed payment tuple,
and running the load twice against the same store doubles the payments row
count — unlike units, clients, and sales. -/
theorem C9_payments_doubled (dsB : Blvd.Dataset) (dsS : SE.Dataset) (s : Store) :
    ((Blvd.load_run dsB s).payments =
        s.payments ++
          Blvd.insert_payment_rows (Blvd.unit_ids dsB.main) (Blvd.client_ids dsB.all)
            dsB.all ∧
      (Blvd.insert_payment_rows (Blvd.unit_ids dsB.main) (Blvd.client_ids dsB.all)
          dsB.all).length =
        (dsB.all.map (fun u =>
          if u.actual_payments ≠ [] ∧
              (Blvd.sale_id_of (Blvd.unit_ids dsB.main) (Blvd.client_ids dsB.all) u).isSome
          then u.actual_payments.length else 0)).sum ∧
      (Blvd.load_run dsB (Blvd.load_run dsB Store.empty)).payments.length =
        2 * (Blvd.load_run dsB Store.empty).payments.length) ∧
    ((SE.load_run dsS s).payments =
        s.payments ++
          SE.insert_payment_rows (SE.unit_ids dsS.main) (SE.client_ids dsS.all) dsS.all ∧
      (SE.insert_payment_rows (SE.unit_ids dsS.main) (SE.client_ids dsS.all)
          dsS.all).length =
        (dsS.all.map (fun u =>
          if u.actual_payments ≠ [] ∧
              (SE.sale_id_of (SE.unit_ids dsS.main) (SE.client_ids dsS.all) u).isSome
          then u.actual_payments.length else 0)).sum ∧
      (SE.load_run dsS (SE.load_run dsS Store.empty)).payments.length =
        2 * (SE.load_run dsS Store.empty).payments.length) := by
  refine ⟨⟨rfl, Blvd.insert_payment_rows_length_blvd _ _ _, ?_⟩,
    rfl, SE.insert_payment_rows_length_se _ _ _, ?_⟩
  · rw [Blvd.load_run_payments_blvd, Blvd.load_run_payments_blvd]
    simp [Store.empty, two_mul]
  · rw [SE.load_run_payments_se, SE.load_run_payments_se]
    simp [Store.empty, two_mul]

/-- C2.  Contrary to the claim (and to the validator's own advisory text
"will create unit from desist data"), the load synthesizes no `Unit` for a
unit key that appears only in a cancellation section: `upsert_units`
receives the MAIN records alone, the desist-only key never enters
`unit_ids`, and `_build_sale_row` then skips the historical record's sale
— evaluated here at a one-record desist-only dataset, which ends with an
empty units table and an empty sales table (while the client row is
created and the advisory is raised). -/
theorem C2_no_unit_synthesized_from_historical :
    (Blvd.validate desistOnlyDataset.main desistOnlyDataset.desist desistOnlyDataset.prob
        desistOnlyDataset.expected).warnings =
      [Finding.desistNotInMain ["999"], Finding.actualsNotInPpto ["999"]] ∧
    (Blvd.load_run desistOnlyDataset Store.empty).units = [] ∧
    (Blvd.load_run desistOnlyDataset Store.empty).sales = [] ∧
    (Blvd.load_run desistOnlyDataset Store.empty).clients = [ClientRow.mk ("Cliente X")] ∧
    Blvd.build_sale_row (Blvd.unit_ids desistOnlyDataset.main)
        (Blvd.client_ids desistOnlyDataset.all) desistOnlyUnit = Option.none := by
  refine ⟨?_, ?_, ?_, ?_, ?_⟩ <;> decide

/-- C3 counterexample.  In the Boulevard ETL a sellable record with no
reservation date is not given the earliest observed payment date and is
not dropped: its sale is built with the substitute date 2023-03-01, which
differs from the record's earliest (and only) payment date 2024-02-15. -/
theorem C3_counterexample_substitute_date :
    noDateUnit.fecha_reserva = Option.none ∧
    min_payment_date noDateUnit.actual_payments = some ⟨2024, 2, 15⟩ ∧
    (Blvd.build_sale_row (["101"]) (["Jane Doe"]) noDateUnit).map (fun r => r.sale_date) =
      some ⟨2023, 3, 1⟩ ∧
    (⟨2023, 3, 1⟩ : Date) ≠ ⟨2024, 2, 15⟩ := by
  refine ⟨rfl, ?_, ?_, ?_⟩ <;> decide

/-- C3 (amended).  Sale-date derivation: in the Santa Elisa ETL a built
sale carries the record's explicit reservation date when present and
otherwise the earliest observed payment date, and a record with neither a
reservation date nor any observed payment builds no sale row at all; in
the Boulevard ETL the sale date is the reservation date when present and
otherwise the fixed substitute 2023-03-01 — a Boulevard record is never
dropped for lack of a date. -/
theorem C3_sale_date_derivation :
    (∀ (uids cids : List String) (u : SE.ParsedUnit) (r : SaleRow),
        SE.build_sale_row uids cids u = some r →
          some r.sale_date =
            (match u.fecha_reserva with
             | some dt => some dt
             | Option.none => min_payment_date u.actual_payments)) ∧
    (∀ (uids cids : List String) (u : SE.ParsedUnit),
        u.fecha_reserva = Option.none → u.actual_payments = [] →
          SE.build_sale_row uids cids u = Option.none) ∧
    (∀ (uids cids : List String) (u : Blvd.ParsedUnit) (r : SaleRow),
        Blvd.build_sale_row uids cids u = some r →
          r.sale_date =
            (match u.fecha_reserva with
             | some dt => dt
             | Option.none => ⟨2023, 3, 1⟩)) := by
  refine ⟨?_, ?_, ?_⟩
  · intro uids cids u r h
    unfold SE.build_sale_row at h
    split at h
    · cases h
    · split at h
      · cases h
      · split at h
        · cases h
        · cases hfr : u.fecha_reserva with
          | some dt =>
            simp only [hfr, Option.some.injEq] at h
            subst h
            simp
          | none =>
            simp only [hfr] at h
            cases hmp : min_payment_date u.actual_payments with
            | some dt =>
              simp only [hmp, Option.some.injEq] at h
              subst h
              simp [hmp]
            | none =>
              simp only [hmp] at h
              cases h
  · intro uids cids u hfr hpay
    unfold SE.build_sale_row
    split
    · rfl
    · cases hcl : u.cliente with
      | none => rfl
      | some c => simp [hfr, hpay, min_payment_date]
  · intro uids cids u r h
    unfold Blvd.build_sale_row at h
    split at h
    · cases h
    · split at h
      · cases h
      · split at h
        · cases h
        · rw [Option.some.injEq] at h
          subst h
          rfl

/-- C3 witness: the amended derivation evaluated at concrete records — a
Santa Elisa record with no reservation date takes its earliest payment
date, a Santa Elisa record with neither is skipped, and a Boulevard record
with no reservation date takes the fixed substitute. -/
theorem C3_sale_date_derivation_witness :
    (some (((SE.build_sale_row (["7"]) (["C"]) seFallbackUnit).get (by decide)).sale_date) =
        min_payment_date seFallbackUnit.actual_payments) ∧
    SE.build_sale_row (["7"]) (["C"]) seNoDateUnit = Option.none ∧
    ((Blvd.build_sale_row (["101"]) (["Jane Doe"]) noDateUnit).get (by decide)).sale_date =
      ⟨2023, 3, 1⟩ := by
  refine ⟨?_, ?_, ?_⟩
  · have h := C3_sale_date_derivation.1 (["7"]) (["C"]) seFallbackUnit _
      (Option.some_get (by decide)).symm
    exact h.trans (by decide)
  · exact C3_sale_date_derivation.2.1 (["7"]) (["C"]) seNoDateUnit rfl rfl
  · have h := C3_sale_date_derivation.2.2 (["101"]) (["Jane Doe"]) noDateUnit _
      (Option.some_get (by decide)).symm
    exact h.trans (by decide)

/-! ## Payment classification -/

theorem enum_map_snd_comp {α β : Type} (l : List α) (h : α → β) :
    (l.enum.map (fun ip => h ip.2)) = l.map h := by
  have e : (fun ip : Nat × α => h ip.2) = h ∘ Prod.snd := rfl
  rw [e, ← List.map_map, List.enum_map_snd]

theorem enumFrom_map_pos {α β : Type} (A B : α → β) :
    ∀ (l : List α) (n : Nat), n ≠ 0 →
      ((List.enumFrom n l).map (fun ip => if ip.1 = 0 then A ip.2 else B ip.2)) =
        l.map B := by
  intro l
  induction l with
  | nil => intro n _; rfl
  | cons a t ih =>
    intro n hn
    simp only [List.enumFrom_cons, List.map_cons]
    rw [if_neg hn, ih (n + 1) (by omega)]

theorem dates_of_enum_map (l : List (Date × ℚ)) (f : Nat × (Date × ℚ) → PaymentRow)
    (hf : ∀ ip, (f ip).payment_date = ip.2.1) :
    ((l.enum.map f).map (fun p => p.payment_date)) = l.map (fun p => p.1) := by
  rw [List.map_map]
  rw [show ((fun p : PaymentRow => p.payment_date) ∘ f) =
    fun ip : Nat × (Date × ℚ) => ip.2.1 from funext hf]
  exact enum_map_snd_comp l (fun p => p.1)

theorem payLe_to_date {a b : Date × ℚ} (h : payLe a b) : Date.lexLe a.1 b.1 := by
  rcases h with h | ⟨he, _⟩
  · exact Or.inl h
  · exact Or.inr he

theorem sorted_sortPayments_dates (ps : List (Date × ℚ)) :
    List.Sorted Date.lexLe ((sortPayments ps).map (fun p => p.1)) := by
  have hs : List.Sorted payLe (sortPayments ps) := List.sorted_insertionSort payLe ps
  exact List.Pairwise.map _ (fun a b h => payLe_to_date h) hs

/-- C4.  Payment classification: for every record, the payments attached to
its resolved sale are its observed payments sorted by date; the first
chronological payment is typed `reservation` and the later ones
`down_payment`, except that every payment of a refund-section (devolución)
record is typed `reimbursement` with its amount made negative regardless
of the stored sign — stated as equality between each loader\x27s
`insert_payments` row builder and a classifier
(`spec_payment_classification`) written from the spec\x27s words, plus
date-sortedness of the emitted rows.  The Boulevard sheet has no refund
section, so its classifier has no reimbursement case. -/
theorem C4_payment_classification :
    (∀ (sid : SaleId) (u : SE.ParsedUnit),
        SE.payment_rows_for sid u = SE.spec_payment_classification sid u) ∧
    (∀ (sid : SaleId) (u : Blvd.ParsedUnit),
        Blvd.payment_rows_for sid u = Blvd.spec_payment_classification sid u) ∧
    (∀ (sid : SaleId) (u : SE.ParsedUnit),
        List.Sorted Date.lexLe ((SE.payment_rows_for sid u).map (fun p => p.payment_date))) ∧
    (∀ (sid : SaleId) (u : Blvd.ParsedUnit),
        List.Sorted Date.lexLe ((Blvd.payment_rows_for sid u).map (fun p => p.payment_date))) := by
  refine ⟨?_, ?_, ?_, ?_⟩
  · intro sid u
    unfold SE.payment_rows_for SE.spec_payment_classification
    by_cases hd : u.source_section = "devolucion"
    · simp only [hd, if_pos]
      exact enum_map_snd_comp (sortPayments u.actual_payments)
        (fun p => ({ sale_id := sid, payment_date := p.1, amount := -|p.2|,
                     payment_type := "reimbursement",
                     notes := "ETL import from " ++ "devolucion" } : PaymentRow))
    · simp only [hd, if_neg, if_false]
      have hfun : (fun ip : Nat × (Date × ℚ) =>
          ({ sale_id := sid, payment_date := ip.2.1, amount := ip.2.2,
             payment_type := if ip.1 = 0 then ("reservation") else ("down_payment"),
             notes := "ETL import from " ++ u.source_section } : PaymentRow)) =
          fun ip : Nat × (Date × ℚ) =>
            if ip.1 = 0 then
              ({ sale_id := sid, payment_date := ip.2.1, amount := ip.2.2,
                 payment_type := "reservation",
                 notes := "ETL import from " ++ u.source_section } : PaymentRow)
            else
              ({ sale_id := sid, payment_date := ip.2.1, amount := ip.2.2,
                 payment_type := "down_payment",
                 notes := "ETL import from " ++ u.source_section } : PaymentRow) := by
        funext ip
        split <;> rfl
      rw [hfun]
      cases hs : sortPayments u.actual_payments with
      | nil => rfl
      | cons first rest =>
        simp only [List.enum_cons, List.map_cons]
        refine congrArg₂ List.cons rfl ?_
        exact enumFrom_map_pos
          (fun p : Date × ℚ =>
            ({ sale_id := sid, payment_date := p.1, amount := p.2,
               payment_type := "reservation",
               notes := "ETL import from " ++ u.source_section } : PaymentRow))
          (fun p : Date × ℚ =>
            ({ sale_id := sid, payment_date := p.1, amount := p.2,
               payment_type := "down_payment",
               notes := "ETL import from " ++ u.source_section } : PaymentRow))
          rest 1 (by omega)
  · intro sid u
    unfold Blvd.payment_rows_for Blvd.spec_payment_classification
    have hfun : (fun ip : Nat × (Date × ℚ) =>
        ({ sale_id := sid, payment_date := ip.2.1, amount := ip.2.2,
           payment_type := if ip.1 = 0 then ("reservation") else ("down_payment"),
           notes := "ETL import from " ++ u.source_section } : PaymentRow)) =
        fun ip : Nat × (Date × ℚ) =>
          if ip.1 = 0 then
            ({ sale_id := sid, payment_date := ip.2.1, amount := ip.2.2,
               payment_type := "reservation",
               notes := "ETL import from " ++ u.source_section } : PaymentRow)
          else
            ({ sale_id := sid, payment_date := ip.2.1, amount := ip.2.2,
               payment_type := "down_payment",
               notes := "ETL import from " ++ u.source_section } : PaymentRow) := by
      funext ip
      split <;> rfl
    rw [hfun]
    cases hs : sortPayments u.actual_payments with
    | nil => rfl
    | cons first rest =>
      simp only [List.enum_cons, List.map_cons]
      refine congrArg₂ List.cons rfl ?_
      exact enumFrom_map_pos
        (fun p : Date × ℚ =>
          ({ sale_id := sid, payment_date := p.1, amount := p.2,
             payment_type := "reservation",
             notes := "ETL import from " ++ u.source_section } : PaymentRow))
        (fun p : Date × ℚ =>
          ({ sale_id := sid, payment_date := p.1, amount := p.2,
             payment_type := "down_payment",
             notes := "ETL import from " ++ u.source_section } : PaymentRow))
        rest 1 (by omega)
  · intro sid u
    unfold SE.payment_rows_for
    rw [dates_of_enum_map (sortPayments u.actual_payments)
      (fun ip : Nat × (Date × ℚ) =>
        if u.source_section = "devolucion" then
          ({ sale_id := sid, payment_date := ip.2.1, amount := -|ip.2.2|,
             payment_type := "reimbursement",
             notes := "ETL import from " ++ u.source_section } : PaymentRow)
        else
          ({ sale_id := sid, payment_date := ip.2.1, amount := ip.2.2,
             payment_type := if ip.1 = 0 then ("reservation") else ("down_payment"),
             notes := "ETL import from " ++ u.source_section } : PaymentRow))
      (by intro ip; split <;> rfl)]
    exact sorted_sortPayments_dates u.actual_payments
  · intro sid u
    unfold Blvd.payment_rows_for
    rw [dates_of_enum_map (sortPayments u.actual_payments)
      (fun ip : Nat × (Date × ℚ) =>
        ({ sale_id := sid, payment_date := ip.2.1, amount := ip.2.2,
           payment_type := if ip.1 = 0 then ("reservation") else ("down_payment"),
           notes := "ETL import from " ++ u.source_section } : PaymentRow))
      (fun ip => rfl)]
    exact sorted_sortPayments_dates u.actual_payments

/-! ## Month-cell payment extraction -/

theorem month_end_to_date_injective {a b : Nat × Nat}
    (h : month_end_to_date a = month_end_to_date b) : a = b := by
  cases a; cases b
  simp only [month_end_to_date, Date.mk.injEq] at h
  simp [h.1, h.2.1]

theorem payment_cell_dates {cellAt : Nat → Value} {m : (Nat × Nat) × Nat} {p : Date × ℚ}
    (hp : p ∈ payment_cell cellAt m) : p.1 = month_end_to_date m.1 := by
  unfold payment_cell at hp
  split at hp
  case h_1 v hv =>
    split at hp
    · rw [List.mem_singleton] at hp
      rw [hp]
    · cases hp
  case h_2 => cases hp

theorem flatMap_payment_filter_nil (cellAt : Nat → Value)
    (L : List ((Nat × Nat) × Nat)) (ym : Nat × Nat)
    (h : ∀ m ∈ L, m.1 ≠ ym) :
    (L.flatMap (payment_cell cellAt)).filter
      (fun p => decide (p.1 = month_end_to_date ym)) = [] := by
  rw [List.filter_eq_nil_iff]
  intro p hp
  rw [List.mem_flatMap] at hp
  obtain ⟨m, hm, hpm⟩ := hp
  have hd := payment_cell_dates hpm
  simp only [decide_eq_true_eq]
  intro he
  exact h m hm (month_end_to_date_injective (hd.symm.trans he))

theorem filter_flatMap_payment_of_mem (cellAt : Nat → Value) :
    ∀ (L : List ((Nat × Nat) × Nat)) (ym : Nat × Nat) (col : Nat),
      (ym, col) ∈ L → ((L.map (fun m => m.1)).Nodup) →
      (L.flatMap (payment_cell cellAt)).filter
          (fun p => decide (p.1 = month_end_to_date ym)) =
        payment_cell cellAt (ym, col) := by
  intro L
  induction L with
  | nil => intro ym col h _; cases h
  | cons m L ih =>
    intro ym col hmem hnd
    rw [List.flatMap_cons, List.filter_append]
    rw [List.map_cons, List.nodup_cons] at hnd
    obtain ⟨hm1, hnd'⟩ := hnd
    rcases List.mem_cons.mp hmem with heq | hmem'
    · rw [← heq] at hm1 ⊢
      have h1 : (payment_cell cellAt (ym, col)).filter
          (fun p => decide (p.1 = month_end_to_date ym)) =
          payment_cell cellAt (ym, col) := by
        rw [List.filter_eq_self]
        intro p hp
        simp [payment_cell_dates hp]
      have h2 : (L.flatMap (payment_cell cellAt)).filter
          (fun p => decide (p.1 = month_end_to_date ym)) = [] := by
        apply flatMap_payment_filter_nil
        intro m' hm' he
        exact hm1 (List.mem_map.mpr ⟨m', hm', he⟩)
      rw [h1, h2, List.append_nil]
    · have hne : m.1 ≠ ym := by
        intro he
        apply hm1
        rw [he]
        exact List.mem_map.mpr ⟨(ym, col), hmem', rfl⟩
      have h1 : (payment_cell cellAt m).filter
          (fun p => decide (p.1 = month_end_to_date ym)) = [] := by
        rw [List.filter_eq_nil_iff]
        intro p hp
        have hd := payment_cell_dates hp
        simp only [decide_eq_true_eq]
        intro he
        exact hne (month_end_to_date_injective (hd.symm.trans he))
      rw [h1, List.nil_append]
      exact ih ym col hmem' hnd'

theorem build_payments_filter (months : List ((Nat × Nat) × Nat)) (cellAt : Nat → Value)
    (ym : Nat × Nat) (col : Nat)
    (hmem : (ym, col) ∈ months) (hnd : (months.map (fun m => m.1)).Nodup) :
    (build_payments months cellAt).filter
        (fun p => decide (p.1 = month_end_to_date ym)) =
      payment_cell cellAt (ym, col) := by
  unfold build_payments
  have hperm := List.perm_insertionSort ymLe months
  have hmem' : (ym, col) ∈ List.insertionSort ymLe months := hperm.mem_iff.mpr hmem
  have hnd' : ((List.insertionSort ymLe months).map (fun m => m.1)).Nodup :=
    (List.Perm.nodup_iff (hperm.map (fun m => m.1))).mpr hnd
  exact filter_flatMap_payment_of_mem cellAt _ ym col hmem' hnd'

/-- C5 (amended).  Month-cell payment extraction: `_safe_float` rounds a
numeric cell to 2 decimals at read time; one month cell then contributes
`[(lastDayOfMonth ym, v)]` when the *rounded* value `v` is non-zero and
nothing otherwise (an empty or non-numeric cell contributes nothing); and
across a whole row with distinct resolved month keys, the payments dated
at month `ym`'s end are exactly that single cell's contribution.  The
claim's wording "a cell holding a non-zero numeric value contributes
exactly one tuple" is wrong for values that round to zero — the zero test
runs after rounding (see the counterexample theorem). -/
theorem C5_month_cell_payment :
    (∀ q : ℚ, safe_float (Value.num q) = some (round2 q)) ∧
    (∀ (cellAt : Nat → Value) (ym : Nat × Nat) (col : Nat),
        payment_cell cellAt (ym, col) =
          match safe_float (cellAt col) with
          | some v => if v ≠ 0 then [(month_end_to_date ym, v)] else []
          | Option.none => []) ∧
    (∀ (months : List ((Nat × Nat) × Nat)) (cellAt : Nat → Value)
        (ym : Nat × Nat) (col : Nat),
        (ym, col) ∈ months → ((months.map (fun m => m.1)).Nodup) →
        (build_payments months cellAt).filter
            (fun p => decide (p.1 = month_end_to_date ym)) =
          payment_cell cellAt (ym, col)) := by
  refine ⟨fun q => rfl, fun cellAt ym col => rfl, ?_⟩
  intro months cellAt ym col hmem hnd
  exact build_payments_filter months cellAt ym col hmem hnd

section
set_option allowUnsafeReducibility true
attribute [local semireducible] Rat.mul Rat.inv Rat.div Rat.add Rat.sub Rat.neg

/-- C5 counterexample: the cell value `1/250 = 0.004` is a non-zero number,
yet it contributes no payment tuple — `_safe_float` rounds it to `0.0`
before the non-zero test. -/
theorem C5_counterexample_rounded_to_zero :
    (1/250 : ℚ) ≠ 0 ∧
    safe_float (Value.num (1/250)) = some 0 ∧
    build_payments [((2024, 1), 3)]
      (fun c => if c = 3 then Value.num (1/250) else Value.vnone) = [] := by
  refine ⟨by decide, by decide, by decide⟩

/-- C5 witness: the filter equation evaluated at one concrete row — a
`0.01` cell in the January 2024 column yields exactly the tuple
`(2024-01-31, 0.01)`. -/
theorem C5_month_cell_payment_witness :
    (build_payments [((2024, 1), 3)]
        (fun c => if c = 3 then Value.num (1/100) else Value.vnone)).filter
        (fun p => decide (p.1 = month_end_to_date (2024, 1))) =
      [(⟨2024, 1, 31⟩, 1/100)] := by
  have h := C5_month_cell_payment.2.2 [((2024, 1), 3)]
    (fun c => if c = 3 then Value.num (1/100) else Value.vnone) (2024, 1) 3
    (by decide) (by decide)
  rw [h]
  decide

/-! ## Blank unit keys: budget parser vs unit-section parsers -/

set_option maxRecDepth 10000 in
/-- C10.  The non-empty-key invariant holds only for unit-section records:
both budget parsers lack the blank-key skip, so on a grid whose budget
unit-key cell holds whitespace-only text next to a non-zero month amount,
`parse_ppto` emits a `ParsedExpected` record with `apto = ""` (shown for
both ETLs on concrete grids), whereas `parse_b5_section` and
`parse_actuals_section` never emit a record with an empty key. -/
theorem C10_blank_key_budget_only :
    (Blvd.parse_ppto blankKeyGrid =
      [{ apto := "", due_date := ⟨2024, 1, 31⟩, amount := 5 }]) ∧
    (SE.parse_ppto blankKeyGridSE =
      [{ apto := "", due_date := ⟨2024, 1, 31⟩, amount := 5 }]) ∧
    (∀ (g : Grid) (hr dStart dEnd cStart cEnd : Nat) (sect : String)
        (ovr : Option (List ((Nat × Nat) × Nat))),
        ∀ u ∈ Blvd.parse_b5_section g hr dStart dEnd cStart cEnd sect ovr,
          u.apto ≠ "") ∧
    (∀ (g : Grid) (hr dStart dEnd cStart cEnd : Nat) (sect : String)
        (ovr : Option (List ((Nat × Nat) × Nat))),
        ∀ u ∈ SE.parse_actuals_section g hr dStart dEnd cStart cEnd sect ovr,
          u.apto ≠ "") := by
  refine ⟨by decide, by decide, ?_, ?_⟩
  · intro g hr dStart dEnd cStart cEnd sect ovr u hu
    unfold Blvd.parse_b5_section at hu
    split at hu <;> dsimp only [] at hu <;> split at hu <;>
      first
        | cases hu
        | (rw [List.mem_filterMap] at hu
           obtain ⟨row, _, hrow⟩ := hu
           unfold Blvd.parse_b5_row at hrow
           split at hrow
           · cases hrow
           · dsimp only [] at hrow
             split at hrow
             · cases hrow
             · rw [Option.some.injEq] at hrow
               subst hrow
               assumption)
  · intro g hr dStart dEnd cStart cEnd sect ovr u hu
    unfold SE.parse_actuals_section at hu
    split at hu <;> dsimp only [] at hu <;> split at hu <;>
      first
        | cases hu
        | (rw [List.mem_filterMap] at hu
           obtain ⟨row, _, hrow⟩ := hu
           unfold SE.parse_actuals_row at hrow
           split at hrow
           · cases hrow
           · dsimp only [] at hrow
             split at hrow
             · cases hrow
             · rw [Option.some.injEq] at hrow
               subst hrow
               assumption)

/-- C10 witness: the section-parser invariant applied to the record the
Boulevard and Santa Elisa parsers each extract from `sectionGrid`. -/
theorem C10_blank_key_budget_only_witness :
    ({ apto := "101", actual_payments := [(⟨2024, 1, 31⟩, 5)],
       source_section := "b5" } : Blvd.ParsedUnit).apto ≠ "" ∧
    ({ apto := "101", actual_payments := [(⟨2024, 1, 31⟩, 5)],
       source_section := "se" } : SE.ParsedUnit).apto ≠ "" := by
  constructor
  · exact C10_blank_key_budget_only.2.2.1 sectionGrid 1 2 2 1 2 ("b5")
      Option.none _ (by decide)
  · exact C10_blank_key_budget_only.2.2.2 sectionGrid 1 2 2 1 2 ("se")
      Option.none _ (by decide)

end

/-! ## Header matching precedence -/

theorem any_filter_eq {α : Type} (q r : α → Bool) (l : List α) :
    (l.filter q).any r = l.any (fun a => q a && r a) := by
  induction l with
  | nil => rfl
  | cons a t ih =>
    cases hq : q a
    · simp [List.filter_cons, hq, ih]
    · simp [List.filter_cons, hq, ih]

theorem match_substring_filter_short (patterns : List (String × List String))
    (claimed : List (String × Nat)) (norm : String) :
    match_substring
        (patterns.map (fun np =>
          (np.1, np.2.filter (fun p => decide (4 < p.length)))))
        claimed norm =
      match_substring patterns claimed norm := by
  unfold match_substring
  rw [List.findSome?_map]
  refine congrArg (fun f => List.findSome? f patterns) (funext (fun np => ?_))
  show (if claimed.any (fun q => decide (q.1 = np.1)) then Option.none
        else if (np.2.filter (fun p => decide (4 < p.length))).any
            (fun p => decide (4 < p.length) && strContains norm p) then some np.1
        else Option.none) =
      (if claimed.any (fun q => decide (q.1 = np.1)) then Option.none
        else if np.2.any (fun p => decide (4 < p.length) && strContains norm p)
          then some np.1
        else Option.none)
  rw [any_filter_eq]
  have he : (fun p : String => decide (4 < p.length) &&
        (decide (4 < p.length) && strContains norm p)) =
      fun p : String => decide (4 < p.length) && strContains norm p := by
    funext p
    cases h4 : decide (4 < p.length) <;> simp
  rw [he]

/-- C6.  Header matching precedence: (i) in a header row holding both
`"tipo de plan"` (an `estatus` pattern, length > 4) and `"tipo"` (a `tipo`
pattern, length ≤ 4), in either order, the two cells resolve to the two
distinct logical fields; (ii) the substring pass is unchanged by deleting
every candidate pattern of length ≤ 4, so a short pattern never claims a
column there; (iii) whenever the exact pass resolves a name, the cell
resolves to exactly that name — the substring pass is never consulted. -/
theorem C6_header_matching_precedence :
    ((discover_headers planTypeRow 1 2 Blvd.B5_HEADER_PATTERNS false).named =
      [("estatus", 1), ("tipo", 2)]) ∧
    ((discover_headers planTypeRowRev 1 2 Blvd.B5_HEADER_PATTERNS false).named =
      [("tipo", 1), ("estatus", 2)]) ∧
    (∀ (patterns : List (String × List String)) (claimed : List (String × Nat))
        (norm : String),
        match_substring
            (patterns.map (fun np =>
              (np.1, np.2.filter (fun p => decide (4 < p.length)))))
            claimed norm =
          match_substring patterns claimed norm) ∧
    (∀ (patterns : List (String × List String)) (claimed : List (String × Nat))
        (norm name : String),
        match_exact patterns claimed norm = some name →
          header_cell_assign patterns claimed norm = some name) := by
  refine ⟨by decide, by decide, match_substring_filter_short, ?_⟩
  intro patterns claimed norm name h
  unfold header_cell_assign
  rw [h]

/-- C6 witness: the exact pass resolves the normalized header `"tipo"` to
the logical name `tipo`, and the cell resolves to the same name. -/
theorem C6_header_matching_precedence_witness :
    header_cell_assign Blvd.B5_HEADER_PATTERNS [] ("tipo") = some ("tipo") :=
  C6_header_matching_precedence.2.2.2 Blvd.B5_HEADER_PATTERNS [] ("tipo") ("tipo")
    (by decide)

/-! ## Validation gating -/

/-- C7.  Validation gating: when the validator reports any fatal finding,
`main` exits 1 with the store untouched — no write happens; when it
reports none (advisories allowed), an `--execute` run with credentials
performs the full load and exits 0. -/
theorem C7_validation_gating (ds : Blvd.Dataset) (s : Store) (execute creds : Bool) :
    ((Blvd.validate ds.main ds.desist ds.prob ds.expected).has_errors = true →
      Blvd.run_main ds execute creds s = (1, s)) ∧
    ((Blvd.validate ds.main ds.desist ds.prob ds.expected).has_errors = false →
      Blvd.run_main ds true true s = (0, Blvd.load_run ds s)) := by
  constructor
  · intro h
    simp [Blvd.run_main, h]
  · intro h
    simp [Blvd.run_main, h]

/-- C7 witness: the duplicate-key dataset trips a fatal finding and the
run aborts with the store untouched; the advisory-only dataset carries a
warning yet its `--execute` run loads and exits 0. -/
theorem C7_validation_gating_witness :
    (Blvd.validate dupAptoDataset.main dupAptoDataset.desist dupAptoDataset.prob
        dupAptoDataset.expected).has_errors = true ∧
    Blvd.run_main dupAptoDataset true true Store.empty = (1, Store.empty) ∧
    (Blvd.validate warnOnlyDataset.main warnOnlyDataset.desist warnOnlyDataset.prob
        warnOnlyDataset.expected).has_errors = false ∧
    (Blvd.validate warnOnlyDataset.main warnOnlyDataset.desist warnOnlyDataset.prob
        warnOnlyDataset.expected).warnings ≠ [] ∧
    Blvd.run_main warnOnlyDataset true true Store.empty =
      (0, Blvd.load_run warnOnlyDataset Store.empty) := by
  refine ⟨by decide, ?_, by decide, by decide, ?_⟩
  · exact (C7_validation_gating dupAptoDataset Store.empty true true).1 (by decide)
  · exact (C7_validation_gating warnOnlyDataset Store.empty true true).2 (by decide)

/-! ## Expected installments -/

theorem group_step_inv (acc : List (String × List ParsedExpected)) (r : ParsedExpected)
    (h : ((acc.map (fun g => g.1)).Nodup ∧ ∀ g ∈ acc, ∀ x ∈ g.2, x.apto = g.1)) :
    (((group_step acc r).map (fun g => g.1)).Nodup ∧
      ∀ g ∈ group_step acc r, ∀ x ∈ g.2, x.apto = g.1) := by
  obtain ⟨hnd, hmem⟩ := h
  unfold group_step
  by_cases hk : assocHas r.apto acc = true
  · rw [if_pos hk]
    constructor
    · have hkeys : ((acc.map (fun g =>
          if g.1 = r.apto then (g.1, g.2 ++ [r]) else g)).map (fun g => g.1)) =
          acc.map (fun g => g.1) := by
        rw [List.map_map]
        apply List.map_congr_left
        intro g _
        by_cases hg : g.1 = r.apto
        · simp [hg]
        · simp [hg]
      rw [hkeys]
      exact hnd
    · intro g hg x hx
      rw [List.mem_map] at hg
      obtain ⟨g0, hg0, hge⟩ := hg
      by_cases hg0k : g0.1 = r.apto
      · rw [if_pos hg0k] at hge
        subst hge
        rcases List.mem_append.mp hx with hx1 | hx2
        · exact hmem g0 hg0 x hx1
        · rw [List.mem_singleton] at hx2
          subst hx2
          exact hg0k.symm
      · rw [if_neg hg0k] at hge
        subst hge
        exact hmem g0 hg0 x hx
  · rw [if_neg hk]
    constructor
    · rw [List.map_append]
      refine List.Nodup.append hnd ?_ ?_
      · exact List.nodup_singleton _
      intro a ha hb
      simp only [List.map_cons, List.map_nil, List.mem_singleton] at hb
      subst hb
      apply hk
      rw [List.mem_map] at ha
      obtain ⟨p, hp, hpe⟩ := ha
      unfold assocHas
      rw [List.any_eq_true]
      exact ⟨p, hp, by rw [decide_eq_true_eq]; exact hpe⟩
    · intro g hg x hx
      rcases List.mem_append.mp hg with h1 | h2
      · exact hmem g h1 x hx
      · rw [List.mem_singleton] at h2
        subst h2
        rw [List.mem_singleton] at hx
        subst hx
        rfl

theorem group_by_apto_foldl_inv (expected : List ParsedExpected) :
    ∀ acc, ((acc.map (fun g => g.1)).Nodup ∧ ∀ g ∈ acc, ∀ x ∈ g.2, x.apto = g.1) →
      (((expected.foldl group_step acc).map (fun g => g.1)).Nodup ∧
        ∀ g ∈ expected.foldl group_step acc, ∀ x ∈ g.2, x.apto = g.1) := by
  induction expected with
  | nil => intro acc h; exact h
  | cons r rs ih =>
    intro acc h
    rw [List.foldl_cons]
    exact ih (group_step acc r) (group_step_inv acc r h)

theorem group_by_apto_inv (expected : List ParsedExpected) :
    (((group_by_apto expected).map (fun g => g.1)).Nodup ∧
      ∀ g ∈ group_by_apto expected, ∀ x ∈ g.2, x.apto = g.1) :=
  group_by_apto_foldl_inv expected [] ⟨List.nodup_nil, by intro g hg; cases hg⟩

theorem expected_block_unit (pn : String) (g : String × List ParsedExpected) :
    ∀ row ∈ expected_block pn g, row.unit_number = g.1 := by
  intro row hrow
  unfold expected_block at hrow
  rw [List.mem_map] at hrow
  obtain ⟨ir, _, he⟩ := hrow
  subst he
  rfl

theorem enumFrom_map_fst_succ {α : Type} :
    ∀ (l : List α) (n : Nat),
      ((l.enumFrom n).map (fun ir : Nat × α => ir.1 + 1)) =
        List.range' (n + 1) l.length := by
  intro l
  induction l with
  | nil => intro n; rfl
  | cons a t ih =>
    intro n
    rw [List.enumFrom_cons, List.map_cons, List.length_cons, List.range'_succ]
    exact congrArg₂ List.cons rfl (ih (n + 1))

theorem enum_map_fst_succ {α : Type} (l : List α) :
    (l.enum.map (fun ir : Nat × α => ir.1 + 1)) = List.range' 1 l.length :=
  enumFrom_map_fst_succ l 0

theorem expected_block_installments (pn : String) (g : String × List ParsedExpected) :
    ((expected_block pn g).map (fun row => row.installment_number)) =
      List.range' 1 (expected_block pn g).length := by
  unfold expected_block
  rw [List.map_map, List.length_map, List.enum_length]
  exact enum_map_fst_succ (List.insertionSort expLe g.2)

theorem expected_block_dates_sorted (pn : String) (g : String × List ParsedExpected) :
    List.Sorted Date.lexLe ((expected_block pn g).map (fun row => row.due_date)) := by
  unfold expected_block
  rw [List.map_map]
  show List.Sorted Date.lexLe ((List.insertionSort expLe g.2).enum.map
    (fun ip : Nat × ParsedExpected => ip.2.due_date))
  rw [enum_map_snd_comp (List.insertionSort expLe g.2) (fun r => r.due_date)]
  exact List.Pairwise.map _ (fun a b h => h)
    (List.sorted_insertionSort expLe g.2)

theorem flatMap_blocks_filter_props (pn : String) :
    ∀ (groups : List (String × List ParsedExpected)) (apto : String),
      ((groups.map (fun g => g.1)).Nodup) →
      ((((groups.flatMap (expected_block pn)).filter
          (fun row => decide (row.unit_number = apto))).map
          (fun row => row.installment_number)) =
        List.range' 1 ((groups.flatMap (expected_block pn)).filter
          (fun row => decide (row.unit_number = apto))).length ∧
      List.Sorted Date.lexLe
        (((groups.flatMap (expected_block pn)).filter
            (fun row => decide (row.unit_number = apto))).map
            (fun row => row.due_date))) := by
  intro groups
  induction groups with
  | nil =>
    intro apto _
    exact ⟨rfl, List.sorted_nil⟩
  | cons g gs ih =>
    intro apto hnd
    rw [List.map_cons, List.nodup_cons] at hnd
    obtain ⟨hg1, hnd'⟩ := hnd
    rw [List.flatMap_cons, List.filter_append]
    by_cases hga : g.1 = apto
    · have hhead : (expected_block pn g).filter
          (fun row => decide (row.unit_number = apto)) = expected_block pn g := by
        rw [List.filter_eq_self]
        intro row hrow
        simp only [decide_eq_true_eq]
        exact (expected_block_unit pn g row hrow).trans hga
      have htail : (gs.flatMap (expected_block pn)).filter
          (fun row => decide (row.unit_number = apto)) = [] := by
        rw [List.filter_eq_nil_iff]
        intro row hrow
        rw [List.mem_flatMap] at hrow
        obtain ⟨g2, hg2, hrow2⟩ := hrow
        simp only [decide_eq_true_eq]
        intro he
        apply hg1
        have hkey : g2.1 = g.1 := by
          rw [← (expected_block_unit pn g2 row hrow2), he, hga]
        rw [← hkey]
        exact List.mem_map.mpr ⟨g2, hg2, rfl⟩
      rw [hhead, htail, List.append_nil]
      exact ⟨expected_block_installments pn g, expected_block_dates_sorted pn g⟩
    · have hhead : (expected_block pn g).filter
          (fun row => decide (row.unit_number = apto)) = [] := by
        rw [List.filter_eq_nil_iff]
        intro row hrow
        simp only [decide_eq_true_eq]
        intro he
        exact hga ((expected_block_unit pn g row hrow).symm.trans he)
      rw [hhead, List.nil_append]
      exact ih apto hnd'

/-- C8.  Expected installments: the spec's scenario (unit `"205"`, amounts
in 2024-01 and 2024-03 with 2024-02 absent, yielding installment numbers 1
and 2 in chronological order); in general, for every unit key the rows
built for it carry the consecutive installment numbers `1, 2, …` with due
dates sorted ascending (absent months are never counted); and rerunning
the expected-payments upsert — conflict key (project, unit, due date,
schedule type) — adds no rows. -/
theorem C8_expected_installments :
    (build_expected_rows ("boulevard")
        [⟨"205", month_end_to_date (2024, 1), 1000⟩,
         ⟨"205", month_end_to_date (2024, 3), 1000⟩] =
      [{ project_id := "boulevard", unit_number := "205", due_date := ⟨2024, 1, 31⟩,
         amount := 1000, installment_number := 1, schedule_type := "budget" },
       { project_id := "boulevard", unit_number := "205", due_date := ⟨2024, 3, 31⟩,
         amount := 1000, installment_number := 2, schedule_type := "budget" }]) ∧
    (∀ (pn apto : String) (expected : List ParsedExpected),
        (((build_expected_rows pn expected).filter
            (fun row => decide (row.unit_number = apto))).map
            (fun row => row.installment_number)) =
          List.range' 1 ((build_expected_rows pn expected).filter
            (fun row => decide (row.unit_number = apto))).length ∧
        List.Sorted Date.lexLe
          (((build_expected_rows pn expected).filter
              (fun row => decide (row.unit_number = apto))).map
              (fun row => row.due_date))) ∧
    (∀ (pn : String) (expected : List ParsedExpected) (l : List ExpRow),
        (upsert_expected_payments pn expected
            (upsert_expected_payments pn expected l)).length =
          (upsert_expected_payments pn expected l).length) := by
  refine ⟨by decide, ?_, ?_⟩
  · intro pn apto expected
    exact flatMap_blocks_filter_props pn (group_by_apto expected) apto
      (group_by_apto_inv expected).1
  · intro pn expected l
    exact foldUpsert_twice_length expKey (build_expected_rows pn expected) l

end Orion
